import Mathlib

/-!
Verification development for the MNQ delta-trend trading strategy
(`src/strategies/mnq-delta-trend/calculator.ts`, `trader.ts`).

Shallow embedding conventions:
* JS `number` values are modelled as `ℚ`; the source's `Number.isFinite`
  guards are therefore vacuously true, and a function that can return `NaN`
  is modelled as returning `Option ℚ` (with `none` for the non-finite case).
* ISO timestamp strings are modelled by their epoch-milliseconds value
  (`ℤ`); `new Date(ts).getTime()` is the identity, and string equality of
  ISO timestamps coincides with equality of the milliseconds.
* The `Intl` timezone conversion used by the trading-session gate lives in
  the JS standard library, not in this repository; a `TimeEnv` carries the
  New-York minutes-of-day function as an environment parameter.
* Config fields are stored with their optional-lookup defaults already
  resolved (the source reads `this.config.x ?? default`); the session
  start/end strings are stored as minutes after midnight, as produced by
  the source's parsing of `'HH:MM'`.
* Async order placement / equity fetch are modelled atomically with a
  boolean success oracle; the two in-flight flags are still tracked since
  the guards read them.
-/

set_option maxRecDepth 10000

namespace MNQDeltaTrend

/-- JS `Math.trunc` on a rational (round toward zero). -/
def jsTrunc (q : ℚ) : ℤ := if 0 ≤ q then ⌊q⌋ else ⌈q⌉

inductive Trend
  | bullish
  | bearish
  | neutral
deriving DecidableEq, Repr

inductive Dir
  | long
  | short
deriving DecidableEq, Repr

/-- Signal kinds; `exit` appears only in the trader's `handleSignal` input type. -/
inductive SigKind
  | buy
  | sell
  | hold
  | exit
deriving DecidableEq, Repr

/-- The source returns human-readable reason strings; they carry no behavioural
weight, so each distinct return site is modelled by a tag. -/
inductive Reason
  | warmUpInProgress
  | outOfSession
  | hitStopExit
  | sameBarReentry
  | atrGate
  | deltaSmaNotReady
  | fadeBarClose
  | ltfEmaLong
  | ltfEmaShort
  | buyClosed
  | sellClosed
  | noSignal
  | warmUpIncompleteIntra
  | alreadyInPosition
  | outOfSessionIntra
  | accumTooShort
  | needConfirms
  | cooldown
  | emaNotReady
  | atrGateIntra
  | deltaSmaNotReadyIntra
  | fadeIntra
  | emaFilterLongIntra
  | emaFilterShortIntra
  | buyIntra
  | sellIntra
  | noIntraSignal
deriving DecidableEq, Repr

structure TradeSignal where
  signal : SigKind
  reason : Reason
  confidence : ℚ
deriving DecidableEq, Repr

/-- `BarData`: `opn` renders the source field `open` (a Lean keyword). -/
structure Bar where
  timestamp : ℤ
  opn : ℚ
  high : ℚ
  low : ℚ
  close : ℚ
  volume : ℚ
  delta : ℚ
deriving DecidableEq, Repr

structure MarketState where
  atr : ℚ
  higherTimeframeTrend : Trend
  deltaCumulative : ℚ
deriving DecidableEq, Repr

structure Position where
  entryPrice : ℚ
  entryTime : ℤ
  direction : Dir
  stopLoss : ℚ
  atrSeedForStop : ℚ
  atrSeedForTrail : ℚ
deriving DecidableEq, Repr

/-- Strategy configuration (`StrategyConfig`), with optional-field defaults
resolved.  `deltaFadeFrac` renders the source field `deltaFadeRatio`. -/
structure Config where
  tradingStartMinutes : ℤ
  tradingEndMinutes : ℤ
  deltaSMALength : ℕ
  deltaSpikeThreshold : ℚ
  deltaSurgeMultiplier : ℚ
  breakoutLookbackBars : ℕ
  emaLength : ℕ
  useEmaFilter : Bool
  htfEMALength : ℕ
  higherTimeframe : ℕ
  htfUseForming : Bool
  atrStopLossMultiplier : ℚ
  minAtrToTrade : ℚ
  minBarsBeforeExit : ℕ
  atrCap : ℚ
  useAtrCap : Bool
  tickExitGraceMs : ℤ
  trailActivationATR : ℚ
  trailOffsetATR : ℚ
  deltaFadeFrac : ℚ
  contractQuantity : ℤ
  useIntraBarDetection : Bool
  intraBarCheckIntervalMs : ℤ
  intraBarMinAccumulationMs : ℤ
  intraBarConfirmationChecks : ℕ
  intraBarConfirmationWindowMs : ℤ

/-- Environment: the New-York local minutes-of-day of an epoch-ms instant
(the source computes this with `Intl.DateTimeFormat`, outside the repo). -/
structure TimeEnv where
  nyMinutesOfDay : ℤ → ℤ

/-- Mutable state of `MNQDeltaTrendCalculator`. -/
structure CalcState where
  bars3min : List Bar
  bars15min : List Bar
  isWarmUpProcessed : Bool
  currentPosition : Option Position
  trailingStopLevel : ℚ
  trailArmed : Bool
  noTrailBeforeMs : ℤ
  lastHTFBucketStartMs : Option ℤ
  intraBarDeltaHistory : List (ℚ × ℤ)
  lastIntraBarSignalTime : ℤ
  lastEntryBarTimestamp : Option ℤ
  atrAtSignal : ℚ
deriving DecidableEq, Repr

/-- `isInTradingSession`: compare the bar's NY minutes-of-day with the
configured `'HH:MM'` window (inclusive on both ends). -/
def isInTradingSession (env : TimeEnv) (cfg : Config) (ts : ℤ) : Bool :=
  let m := env.nyMinutesOfDay ts
  decide (cfg.tradingStartMinutes ≤ m) && decide (m ≤ cfg.tradingEndMinutes)

/-- Modelled from the spec: `TechnicalCalculator.calculateEMA` lives in
`src/utils/technical.ts`, which is not part of the provided sources.
Spec §4.1 specifies a "standard exponential moving average"; we model the
standard recurrence with multiplier `k = 2/(length+1)`, seeded at the first
element, returning the running series. -/
def calculateEMA (series : List ℚ) (len : ℕ) : List ℚ :=
  match series with
  | [] => []
  | x :: xs =>
    let k : ℚ := 2 / ((len : ℚ) + 1)
    List.scanl (fun prev y => k * y + (1 - k) * prev) x xs

def atrPeriod : ℕ := 14

/-- True range of a pair of adjacent bars. -/
def trueRange (prev cur : Bar) : ℚ :=
  max (cur.high - cur.low) (max |cur.high - prev.close| |cur.low - prev.close|)

/-- True ranges of each adjacent pair, in order. -/
def trueRanges : List Bar → List ℚ
  | a :: b :: rest => trueRange a b :: trueRanges (b :: rest)
  | _ => []

/-- Wilder smoothing over the remaining true ranges. -/
def wilderSmooth (seed : ℚ) (rest : List ℚ) : ℚ :=
  rest.foldl (fun a t => (a * ((atrPeriod : ℚ) - 1) + t) / (atrPeriod : ℚ)) seed

/-- `calculateATR`: the source scans backward collecting bars with all-finite
OHLC until `period+1` are found, then reverses them back to chronological
order.  In this rational model every bar is finite, so the collected tail is
the last `period+1` bars. -/
def calculateATR (bars : List Bar) : Option ℚ :=
  if bars.length < atrPeriod + 1 then none
  else
    let validTail := (bars.reverse.take (atrPeriod + 1)).reverse
    if validTail.length < atrPeriod + 1 then none
    else
      let tr := trueRanges validTail
      if tr.length < atrPeriod then none
      else some (wilderSmooth ((tr.take atrPeriod).sum / (atrPeriod : ℚ))
                              (tr.drop atrPeriod))

/-- `smaSignedDelta`: the source takes `endIndex = bars3min.length - 1`,
returns `NaN` when the list is empty or the window `[endIndex-n+1, endIndex]`
clipped at 0 holds fewer than `n` bars, else the mean of the window's deltas
(bars constructed by this class always carry a numeric `delta`, so the
`?? ...` fallback inside the sum never fires). -/
def smaSignedDelta (bars : List Bar) (n : ℕ) : Option ℚ :=
  if bars.length = 0 then none
  else if bars.length < n then none
  else some (((bars.drop (bars.length - n)).map (fun b => b.delta)).sum / (n : ℚ))

structure EmaGates where
  passLong : Bool
  passShort : Bool
  lastClose : Option ℚ
  lastEma : Option ℚ
deriving DecidableEq, Repr

/-- `checkLtfEmaFilter` (`NaN` results rendered as `none`). -/
def checkLtfEmaFilter (cfg : Config) (bars3 : List Bar) : EmaGates :=
  if cfg.useEmaFilter = false then
    { passLong := true, passShort := true,
      lastClose := bars3.getLast?.map (fun b => b.close), lastEma := none }
  else
    let L := max 1 cfg.emaLength
    let closes := bars3.map (fun b => b.close)
    if closes.length < L then
      { passLong := false, passShort := false, lastClose := none, lastEma := none }
    else
      match closes.getLast?, (calculateEMA closes L).getLast? with
      | some c, some e =>
        { passLong := decide (c > e), passShort := decide (c < e),
          lastClose := some c, lastEma := some e }
      | _, _ =>
        { passLong := false, passShort := false, lastClose := none, lastEma := none }

/-- `determineTrend` over the higher-timeframe bars. -/
def determineTrend (cfg : Config) (bars15 : List Bar) : Trend :=
  if bars15.length < 2 then .neutral
  else
    let L := max 1 cfg.htfEMALength
    let lastIdx := if cfg.htfUseForming then bars15.length - 1 else bars15.length - 2
    let closes := (bars15.take (lastIdx + 1)).map (fun b => b.close)
    if closes.length < L then .neutral
    else
      match closes.getLast?, (calculateEMA closes L).getLast? with
      | some px, some ema =>
        if px > ema then .bullish else if px < ema then .bearish else .neutral
      | _, _ => .neutral

structure BreakGates where
  brokeUpCloseTol : Bool
  brokeDownCloseTol : Bool
deriving DecidableEq, Repr

/-- `checkBreakoutCloseTol`: window = the `n` bars preceding the last closed
bar (`slice(-n-1, -1)`), tolerance 0.5%. -/
def checkBreakoutCloseTol (cfg : Config) (bars3 : List Bar) : BreakGates :=
  let n := max 1 cfg.breakoutLookbackBars
  if bars3.length < n + 1 then ⟨false, false⟩
  else
    let recent := (bars3.drop (bars3.length - (n + 1))).take n
    match bars3.getLast?, (recent.map (fun b => b.high)).max?,
          (recent.map (fun b => b.low)).min? with
    | some lastBar, some hi, some lo =>
      ⟨decide (lastBar.close > hi * (995/1000 : ℚ)),
       decide (lastBar.close < lo * (1005/1000 : ℚ))⟩
    | _, _, _ => ⟨false, false⟩

/-- `checkBreakoutCloseTolForming`: window = the `n` most recent closed bars. -/
def checkBreakoutCloseTolForming (cfg : Config) (bars3 : List Bar) (forming : Bar) :
    BreakGates :=
  let n := max 1 cfg.breakoutLookbackBars
  if bars3.length < n then ⟨false, false⟩
  else
    let window := bars3.drop (bars3.length - n)
    match (window.map (fun b => b.high)).max?,
          (window.map (fun b => b.low)).min? with
    | some hi, some lo =>
      ⟨decide (forming.close > hi * (995/1000 : ℚ)),
       decide (forming.close < lo * (1005/1000 : ℚ))⟩
    | _, _ => ⟨false, false⟩

/-- `checkExitConditions`: called after the incoming bar has been pushed, so
`cs.bars3min` already contains it when the bars-since-entry count is taken. -/
def checkExitConditions (cfg : Config) (cs : CalcState) (bar : Bar) :
    Option TradeSignal :=
  match cs.currentPosition with
  | none => none
  | some pos =>
    let minBars := cfg.minBarsBeforeExit
    let barsSinceEntry :=
      (cs.bars3min.filter (fun b => decide (pos.entryTime < b.timestamp))).length
    if barsSinceEntry < minBars then none
    else if pos.direction = .long ∧ bar.low ≤ pos.stopLoss then
      some ⟨.sell, .hitStopExit, 1⟩
    else if pos.direction = .short ∧ pos.stopLoss ≤ bar.high then
      some ⟨.buy, .hitStopExit, 1⟩
    else none

/-- Peak delta magnitude of the bar-close fade check:
`max(|previous bar delta|, |current delta|)`. -/
def closedBarPeakAbs (bars3 : List Bar) (delta : ℚ) : ℚ :=
  let prevDelta := ((bars3[bars3.length - 2]?).map (fun b => b.delta)).getD 0
  max |prevDelta| |delta|

/-- Bar-close fade check (true = passes): `peak == 0 || curr ≥ peak × ratio`. -/
def fadePassClosed (cfg : Config) (bars3 : List Bar) (delta : ℚ) : Bool :=
  let peakAbs := closedBarPeakAbs bars3 delta
  decide (peakAbs = 0) || decide (|delta| ≥ peakAbs * cfg.deltaFadeFrac)

structure Gates where
  brokeUpCloseTol : Bool
  brokeDownCloseTol : Bool
  passLong : Bool
  passShort : Bool
deriving DecidableEq, Repr

/-- `generateSignal` (bar-close path); returns the signal and the updated
calculator state (`lastEntryBarTimestamp` is recorded on success). -/
def generateSignal (cfg : Config) (cs : CalcState) (bar : Bar) (ms : MarketState)
    (g : Gates) : TradeSignal × CalcState :=
  if cs.lastEntryBarTimestamp = some bar.timestamp then
    (⟨.hold, .sameBarReentry, 0⟩, cs)
  else if ¬ (ms.atr > cfg.minAtrToTrade) then (⟨.hold, .atrGate, 0⟩, cs)
  else
    let spike := cfg.deltaSpikeThreshold
    let delta := bar.delta
    let len := max 1 cfg.deltaSMALength
    match smaSignedDelta cs.bars3min len with
    | none => (⟨.hold, .deltaSmaNotReady, 0⟩, cs)
    | some deltaSMA =>
      if 2 ≤ cs.bars3min.length ∧ fadePassClosed cfg cs.bars3min delta = false then
        (⟨.hold, .fadeBarClose, 0⟩, cs)
      else
        let longThreshold := |deltaSMA| * cfg.deltaSurgeMultiplier
        let shortThreshold := -(|deltaSMA| * cfg.deltaSurgeMultiplier)
        let passDeltaLong := decide (delta > spike) && decide (delta > longThreshold)
        let passDeltaShort := decide (delta < -spike) && decide (delta < shortThreshold)
        if passDeltaLong ∧ ms.higherTimeframeTrend = .bullish ∧ g.brokeUpCloseTol then
          if cfg.useEmaFilter ∧ g.passLong = false then (⟨.hold, .ltfEmaLong, 0⟩, cs)
          else (⟨.buy, .buyClosed, 9/10⟩,
                { cs with lastEntryBarTimestamp := some bar.timestamp })
        else if passDeltaShort ∧ ms.higherTimeframeTrend = .bearish ∧ g.brokeDownCloseTol then
          if cfg.useEmaFilter ∧ g.passShort = false then (⟨.hold, .ltfEmaShort, 0⟩, cs)
          else (⟨.sell, .sellClosed, 9/10⟩,
                { cs with lastEntryBarTimestamp := some bar.timestamp })
        else (⟨.hold, .noSignal, 0⟩, cs)

/-- Peak delta magnitude of the intra-bar fade check:
`Math.max(...history magnitudes, |delta|, 0)`. -/
def intraPeakAbs (hist : List (ℚ × ℤ)) (delta : ℚ) : ℚ :=
  max ((hist.map (fun e => |e.1|)).foldr max 0) |delta|

/-- Intra-bar fade check (true = passes). -/
def fadePassIntra (cfg : Config) (hist : List (ℚ × ℤ)) (delta : ℚ) : Bool :=
  let peakAbs := intraPeakAbs hist delta
  decide (peakAbs = 0) || decide (|delta| ≥ peakAbs * cfg.deltaFadeFrac)

/-- `generateSignalForFormingBar` (intra-bar path); pure, no state update. -/
def generateSignalForFormingBar (cfg : Config) (cs : CalcState) (formingBar : Bar)
    (ms : MarketState) (g : Gates) : TradeSignal :=
  if ¬ (ms.atr > cfg.minAtrToTrade) then ⟨.hold, .atrGateIntra, 0⟩
  else
    let spike := cfg.deltaSpikeThreshold
    let delta := formingBar.delta
    let len := max 1 cfg.deltaSMALength
    match smaSignedDelta cs.bars3min len with
    | none => ⟨.hold, .deltaSmaNotReadyIntra, 0⟩
    | some deltaSMA =>
      let longThreshold := |deltaSMA| * cfg.deltaSurgeMultiplier
      let shortThreshold := -(|deltaSMA| * cfg.deltaSurgeMultiplier)
      let fadeOk := fadePassIntra cfg cs.intraBarDeltaHistory delta
      if fadeOk = false then ⟨.hold, .fadeIntra, 0⟩
      else
        let passDeltaLong :=
          decide (delta > spike) && decide (delta > longThreshold) && fadeOk
        let passDeltaShort :=
          decide (delta < -spike) && decide (delta < shortThreshold) && fadeOk
        if passDeltaLong ∧ ms.higherTimeframeTrend = .bullish ∧ g.brokeUpCloseTol then
          if cfg.useEmaFilter ∧ g.passLong = false then
            ⟨.hold, .emaFilterLongIntra, 0⟩
          else ⟨.buy, .buyIntra, 85/100⟩
        else if passDeltaShort ∧ ms.higherTimeframeTrend = .bearish ∧ g.brokeDownCloseTol then
          if cfg.useEmaFilter ∧ g.passShort = false then
            ⟨.hold, .emaFilterShortIntra, 0⟩
          else ⟨.sell, .sellIntra, 85/100⟩
        else ⟨.hold, .noIntraSignal, 0⟩

/-- `updateHigherTimeframeBars`: bucket the 3-minute bar into the HTF series,
either pushing a new HTF bar or extending the last one in place. -/
def updateHigherTimeframeBars (cfg : Config) (bars15 : List Bar)
    (lastHTF : Option ℤ) (bar : Bar) : List Bar × Option ℤ :=
  let htfMin : ℤ := max 1 (cfg.higherTimeframe : ℤ)
  let stepMs := htfMin * 60000
  let bucketStartMs := (Int.ediv bar.timestamp stepMs) * stepMs
  let pushNew : Bool :=
    match bars15.getLast?, lastHTF with
    | none, _ => true
    | _, none => true
    | some _, some lb => decide (bucketStartMs > lb)
  if pushNew then
    let pushed := bars15 ++ [bar]
    let pushed' := if pushed.length > 1000 then pushed.drop 1 else pushed
    (pushed', some bucketStartMs)
  else
    match bars15.getLast? with
    | some lastBar =>
      let updated :=
        { lastBar with
          high := max lastBar.high bar.high,
          low := min lastBar.low bar.low,
          close := bar.close,
          volume := lastBar.volume + bar.volume,
          delta := lastBar.delta + bar.delta }
      (bars15.dropLast ++ [updated], lastHTF)
    | none => (bars15, lastHTF)

/-- Normalisation of an incoming closed bar in `processNewBar`: the source
recomputes a signed volume as fallback for a non-numeric `delta`, but bars in
this model always carry a numeric delta, so only `Math.trunc` applies. -/
def normalizeClosedBar (bar : Bar) : Bar :=
  { bar with delta := ((jsTrunc bar.delta : ℤ) : ℚ) }

/-- `processNewBar`: push the closed bar, refresh indicators and market state,
then session gate, exit-by-stop check, and the entry gate pipeline. -/
def processNewBar (env : TimeEnv) (cfg : Config) (cs : CalcState) (incoming : Bar)
    (ms : MarketState) : TradeSignal × CalcState × MarketState :=
  if cs.isWarmUpProcessed = false then (⟨.hold, .warmUpInProgress, 0⟩, cs, ms)
  else
    let bar := normalizeClosedBar incoming
    let pushed := cs.bars3min ++ [bar]
    let bars3' := if pushed.length > 2000 then pushed.drop 1 else pushed
    let (bars15', lastHTF') :=
      updateHigherTimeframeBars cfg cs.bars15min cs.lastHTFBucketStartMs bar
    let cs1 :=
      { cs with
        bars3min := bars3'
        bars15min := bars15'
        lastHTFBucketStartMs := lastHTF' }
    let atrOpt := calculateATR cs1.bars3min
    let trend := determineTrend cfg cs1.bars15min
    let bg := checkBreakoutCloseTol cfg cs1.bars3min
    let eg := checkLtfEmaFilter cfg cs1.bars3min
    let ms1 :=
      { ms with
        atr := atrOpt.getD 0
        higherTimeframeTrend := trend
        deltaCumulative := ms.deltaCumulative + bar.delta }
    if isInTradingSession env cfg incoming.timestamp = false then
      (⟨.hold, .outOfSession, 0⟩, cs1, ms1)
    else
      match checkExitConditions cfg cs1 bar with
      | some ex => (ex, cs1, ms1)
      | none =>
        let (sig, cs2) := generateSignal cfg cs1 bar ms1
          ⟨bg.brokeUpCloseTol, bg.brokeDownCloseTol, eg.passLong, eg.passShort⟩
        (sig, cs2, ms1)

/-- `evaluateFormingBar` (intra-bar entry point); `nowMs` renders `Date.now()`. -/
def evaluateFormingBar (env : TimeEnv) (cfg : Config) (cs : CalcState)
    (formingBar : Bar) (ms : MarketState) (accumulationTimeMs : ℤ) (nowMs : ℤ) :
    TradeSignal × CalcState × MarketState :=
  if cs.isWarmUpProcessed = false then (⟨.hold, .warmUpIncompleteIntra, 0⟩, cs, ms)
  else if cs.currentPosition.isSome then (⟨.hold, .alreadyInPosition, 0⟩, cs, ms)
  else if isInTradingSession env cfg formingBar.timestamp = false then
    (⟨.hold, .outOfSessionIntra, 0⟩, cs, ms)
  else if accumulationTimeMs < cfg.intraBarMinAccumulationMs then
    (⟨.hold, .accumTooShort, 0⟩, cs, ms)
  else
    let recentHistory := cs.intraBarDeltaHistory.filter
      (fun e => decide (nowMs - e.2 ≤ cfg.intraBarConfirmationWindowMs))
    if recentHistory.length < cfg.intraBarConfirmationChecks then
      (⟨.hold, .needConfirms, 0⟩, cs, ms)
    else if nowMs - cs.lastIntraBarSignalTime < 2000 then
      (⟨.hold, .cooldown, 0⟩, cs, ms)
    else
      let atrOpt := calculateATR cs.bars3min
      let trend := determineTrend cfg cs.bars15min
      let bg := checkBreakoutCloseTolForming cfg cs.bars3min formingBar
      let eg := checkLtfEmaFilter cfg cs.bars3min
      if cfg.useEmaFilter ∧ eg.lastEma = none then (⟨.hold, .emaNotReady, 0⟩, cs, ms)
      else
        -- comparisons against a NaN EMA are false in JS; `none` renders NaN
        let passLong := !cfg.useEmaFilter ||
          (match eg.lastEma with
           | some e => decide (formingBar.close > e)
           | none => false)
        let passShort := !cfg.useEmaFilter ||
          (match eg.lastEma with
           | some e => decide (formingBar.close < e)
           | none => false)
        let ms1 := { ms with atr := atrOpt.getD 0, higherTimeframeTrend := trend }
        let sig := generateSignalForFormingBar cfg cs formingBar ms1
          ⟨bg.brokeUpCloseTol, bg.brokeDownCloseTol, passLong, passShort⟩
        if sig.signal ≠ .hold then
          (sig, { cs with lastIntraBarSignalTime := nowMs }, ms1)
        else (sig, cs, ms1)

/-- `setPosition`: seed stops from the (optionally capped) ATR and initialise
the trailing state; `nowMs` renders `Date.now()`. -/
def setPosition (cfg : Config) (cs : CalcState) (entryPrice : ℚ) (direction : Dir)
    (atrForTrail : Option ℚ) (nowMs : ℤ) : CalcState :=
  let liveAtr :=
    match atrForTrail with
    | some a => if a > 0 then a else cs.atrAtSignal
    | none => cs.atrAtSignal
  let atrSeedForStop := if cfg.useAtrCap then min liveAtr cfg.atrCap else liveAtr
  let atrSeedForTrail := liveAtr
  let slDist := atrSeedForStop * cfg.atrStopLossMultiplier
  let stopLoss := if direction = .long then entryPrice - slDist else entryPrice + slDist
  { cs with
    currentPosition :=
      some ⟨entryPrice, nowMs, direction, stopLoss, atrSeedForStop, atrSeedForTrail⟩,
    trailingStopLevel := stopLoss,
    trailArmed := false,
    noTrailBeforeMs := nowMs + cfg.tickExitGraceMs }

inductive StopHit
  | none
  | hitStop
  | hitTrail
deriving DecidableEq, Repr

/-- Long-direction arm-and-ratchet block of `onTickForProtectiveStops`
(source lines 530-539): arm when favourable excursion reaches the activation
distance, then ratchet the level upward only, and test `hitTrail`. -/
def trailStepLong (cfg : Config) (cs : CalcState) (pos : Position)
    (lastPrice : ℚ) : StopHit × CalcState :=
  let act := pos.atrSeedForTrail * cfg.trailActivationATR
  let off := pos.atrSeedForTrail * cfg.trailOffsetATR
  let armed1 := cs.trailArmed || decide (lastPrice - pos.entryPrice ≥ act)
  let level1 :=
    if cs.trailArmed = false ∧ lastPrice - pos.entryPrice ≥ act then
      max pos.stopLoss (lastPrice - off)
    else cs.trailingStopLevel
  if armed1 then
    let candidate := max pos.stopLoss (lastPrice - off)
    let level2 := if candidate > level1 then candidate else level1
    let cs' := { cs with trailArmed := armed1, trailingStopLevel := level2 }
    if lastPrice ≤ level2 then (.hitTrail, cs') else (.none, cs')
  else (.none, { cs with trailArmed := armed1, trailingStopLevel := level1 })

/-- Short-direction arm-and-ratchet block of `onTickForProtectiveStops`
(source lines 541-549): mirror image of `trailStepLong`. -/
def trailStepShort (cfg : Config) (cs : CalcState) (pos : Position)
    (lastPrice : ℚ) : StopHit × CalcState :=
  let act := pos.atrSeedForTrail * cfg.trailActivationATR
  let off := pos.atrSeedForTrail * cfg.trailOffsetATR
  let armed1 := cs.trailArmed || decide (pos.entryPrice - lastPrice ≥ act)
  let level1 :=
    if cs.trailArmed = false ∧ pos.entryPrice - lastPrice ≥ act then
      min pos.stopLoss (lastPrice + off)
    else cs.trailingStopLevel
  if armed1 then
    let candidate := min pos.stopLoss (lastPrice + off)
    let level2 := if candidate < level1 then candidate else level1
    let cs' := { cs with trailArmed := armed1, trailingStopLevel := level2 }
    if lastPrice ≥ level2 then (.hitTrail, cs') else (.none, cs')
  else (.none, { cs with trailArmed := armed1, trailingStopLevel := level1 })

/-- `onTickForProtectiveStops`: fixed stop first, then grace / seed guards,
then the arm-and-ratchet trailing block.  The `_atrNow` argument is unused by
the source as well. -/
def onTickForProtectiveStops (cfg : Config) (cs : CalcState) (lastPrice : ℚ)
    ( _atrNow : ℚ) (nowMs : ℤ) : StopHit × CalcState :=
  match cs.currentPosition with
  | Option.none => (.none, cs)
  | some pos =>
    if pos.direction = .long ∧ lastPrice ≤ pos.stopLoss then (.hitStop, cs)
    else if pos.direction = .short ∧ pos.stopLoss ≤ lastPrice then (.hitStop, cs)
    else if nowMs < cs.noTrailBeforeMs then (.none, cs)
    else if pos.atrSeedForTrail ≤ 0 then (.none, cs)
    else if pos.direction = .long then trailStepLong cfg cs pos lastPrice
    else trailStepShort cfg cs pos lastPrice

/-- `calculatePositionSize`: 1% risk of equity over the ATR-stop distance,
clamped to `[1, contractQuantity]`; the price argument is unused by the
source as well (`void currentPrice`). -/
def calculatePositionSize (cfg : Config) ( _currentPrice atr accountBalance : ℚ) : ℤ :=
  let riskAmount := accountBalance * (1/100 : ℚ)
  let riskPerContract := atr * cfg.atrStopLossMultiplier
  if riskPerContract ≤ 0 then 1
  else
    let size := ⌊riskAmount / riskPerContract⌋
    min (max 1 size) cfg.contractQuantity

/-! ## Trader (`MNQDeltaTrendTrader`) -/

/-- Fixed 3-minute bucket duration. -/
def barStepMs : ℤ := 3 * 60 * 1000

/-- Tick-time floored to the bucket duration (`Math.floor(now/step)*step`). -/
def bucketStartOf (nowMs : ℤ) : ℤ := (Int.ediv nowMs barStepMs) * barStepMs

/-- Per-tick volume delta from the cumulative counter (source lines 245-256).
On a counter decrease (broker reset) the source also writes a 0 baseline,
which is unconditionally overwritten by `cumVol` at the end of the handler
before any read, so the stored baseline after the tick is `cumVol` in every
case. -/
def tickDeltaVol (prevCum : Option ℚ) (cumVol : ℚ) : ℚ :=
  match prevCum with
  | some p => if cumVol ≥ p then cumVol - p else cumVol
  | none => cumVol

/-- Pine-style whole-bar delta: sign from the current price against the
previous closed bar's close, magnitude the accumulated in-bar volume. -/
def pineDelta (px : ℚ) (prevClosedBarClose : Option ℚ) (barVol : ℚ) : ℚ :=
  match prevClosedBarClose with
  | some c => if px > c then barVol else if px < c then -barVol else 0
  | none => 0

/-- State of `MNQDeltaTrendTrader` for its single instrument (the per-contract
maps hold exactly one key). -/
structure TraderState where
  running : Bool
  lastPrice : Option ℚ
  lastCumVol : Option ℚ
  signedVolInBar : ℚ
  volInBar : ℚ
  prevClosedBarClose : Option ℚ
  barOpenPx : Option ℚ
  barHighPx : Option ℚ
  barLowPx : Option ℚ
  barStartMs : Option ℤ
  liveBarOpen : Option ℚ
  liveBarHigh : Option ℚ
  liveBarLow : Option ℚ
  liveBarStartMs : Option ℤ
  lastIntraBarCheckMs : ℤ
  enteredBarStartMs : Option ℤ
  isEnteringPosition : Bool
  isFlattening : Bool
  reconciling : Bool
  market : MarketState
  calcSt : CalcState
deriving DecidableEq, Repr

/-- `handleSignal`: guarded entry execution.  The async equity fetch and order
placement are collapsed into the `orderOk` oracle; the returned flag is true
iff execution passed every guard and reached the order attempt (only then can
`createOrder` be invoked).  On failure the per-bar marker is rolled back; the
source guards the rollback with `barStartMs === barId`, which always holds
inside this atomic step since `handleSignal` never writes `barStartMs`. -/
def handleSignal (cfg : Config) (st : TraderState) (sig : SigKind) (bar : Bar)
    (equity : ℚ) (nowMs : ℤ) (orderOk : Bool) : TraderState × Bool :=
  if sig = .exit ∨ sig = .hold then (st, false)
  else if st.calcSt.currentPosition.isSome then (st, false)
  else if st.isEnteringPosition ∨ st.reconciling then (st, false)
  else if st.enteredBarStartMs = st.barStartMs then (st, false)
  else if st.market.atr < max 0 cfg.minAtrToTrade then (st, false)
  else
    let barId := st.barStartMs
    let atrSnapshot := st.market.atr
    let st1 :=
      { st with
        enteredBarStartMs := barId
        isEnteringPosition := true
        reconciling := true }
    let calc1 := { st1.calcSt with atrAtSignal := atrSnapshot }
    if orderOk then
      let _qty := max 1 (calculatePositionSize cfg bar.close atrSnapshot equity)
      let direction := if sig = .buy then Dir.long else Dir.short
      let calc2 := setPosition cfg calc1 bar.close direction (some atrSnapshot) nowMs
      let calc3 := { calc2 with intraBarDeltaHistory := [] }
      ({ st1 with
         calcSt := calc3
         isEnteringPosition := false
         reconciling := false }, true)
    else
      ({ st1 with
         calcSt := calc1
         enteredBarStartMs := Option.none
         isEnteringPosition := false
         reconciling := false }, true)

/-- `closeBarAndProcess`: build the closed bar from the forming OHLC and the
accumulators, reset the accumulators, complete warm-up at 20 bars, run
`processNewBar`, optionally act on the signal (intra-bar OFF), and re-seed
the forming OHLC at the closed price.  Returns the emitted bar. -/
def closeBarAndProcess (env : TimeEnv) (cfg : Config) (st : TraderState)
    (equity : ℚ) (nowMs : ℤ) (orderOk : Bool) : TraderState × Option Bar :=
  match st.barStartMs, st.barOpenPx, st.barHighPx, st.barLowPx with
  | some bs, some op, some hp, some lp =>
    match st.lastPrice with
    | Option.none => (st, Option.none)
    | some closePx =>
      let volume : ℚ := ((max 0 ⌊st.volInBar⌋ : ℤ) : ℚ)
      let signed : ℚ := ((jsTrunc st.signedVolInBar : ℤ) : ℚ)
      let closedBar : Bar := ⟨bs + barStepMs - 1, op, hp, lp, closePx, volume, signed⟩
      let st1 :=
        { st with
          prevClosedBarClose := some closePx
          volInBar := 0
          signedVolInBar := 0 }
      -- completeWarmUp flips the flag; its ATR/trend calls are logging only
      let calc1 :=
        if st1.calcSt.isWarmUpProcessed = false ∧ 20 ≤ st1.calcSt.bars3min.length then
          { st1.calcSt with isWarmUpProcessed := true }
        else st1.calcSt
      let (sig, calc2, ms2) := processNewBar env cfg calc1 closedBar st1.market
      let st2 := { st1 with calcSt := calc2, market := ms2 }
      let st3 :=
        if cfg.useIntraBarDetection = false ∧ st2.reconciling = false then
          (handleSignal cfg st2 sig.signal closedBar equity nowMs orderOk).1
        else st2
      ({ st3 with
         barOpenPx := some closePx
         barHighPx := some closePx
         barLowPx := some closePx }, some closedBar)
  | _, _, _, _ => (st, Option.none)

/-- `checkIntraBarSignal`: build the forming-bar snapshot, evaluate it, and
route a non-hold signal through `handleSignal`.  The source treats a zero
`liveBarStartMs` as falsy, yielding zero accumulation time. -/
def checkIntraBarSignal (env : TimeEnv) (cfg : Config) (st : TraderState)
    (currentPrice : ℚ) (nowMs : ℤ) (equity : ℚ) (orderOk : Bool) : TraderState :=
  match st.barStartMs with
  | Option.none => st
  | some bs =>
    let formingBar : Bar :=
      ⟨bs + barStepMs - 1,
       st.liveBarOpen.getD currentPrice, st.liveBarHigh.getD currentPrice,
       st.liveBarLow.getD currentPrice, currentPrice,
       st.volInBar, st.signedVolInBar⟩
    let accumulationMs : ℤ :=
      match st.liveBarStartMs with
      | some l => if l = 0 then 0 else nowMs - l
      | Option.none => 0
    let (sig, calc1, ms1) :=
      evaluateFormingBar env cfg st.calcSt formingBar st.market accumulationMs nowMs
    let st1 := { st with calcSt := calc1, market := ms1 }
    if sig.signal ≠ .hold then
      (handleSignal cfg st1 sig.signal formingBar equity nowMs orderOk).1
    else st1

/-- Bucketing stage of `onQuote` (source lines 199-238): first-tick
initialisation, rollover (close previous bucket, open the new one at the
triggering tick's price), or extension of the current bucket's extremes.
The non-null assertions on the extremes hold on every reachable state; they
are rendered total with `getD px`. -/
def bucketingStage (env : TimeEnv) (cfg : Config) (st : TraderState) (px : ℚ)
    (nowMs : ℤ) (equity : ℚ) (orderOk : Bool) : TraderState × Option Bar :=
  let bucketStart := bucketStartOf nowMs
  match st.barStartMs with
  | Option.none =>
    ({ st with
       barStartMs := some bucketStart
       barOpenPx := some px
       barHighPx := some px
       barLowPx := some px
       liveBarOpen := some px
       liveBarHigh := some px
       liveBarLow := some px
       liveBarStartMs := some nowMs
       volInBar := 0
       signedVolInBar := 0 }, Option.none)
  | some bs =>
    if bucketStart > bs then
      let (stC, em) := closeBarAndProcess env cfg st equity nowMs orderOk
      ({ stC with
         barStartMs := some bucketStart
         barOpenPx := some px
         barHighPx := some px
         barLowPx := some px
         liveBarOpen := some px
         liveBarHigh := some px
         liveBarLow := some px
         liveBarStartMs := some nowMs
         lastIntraBarCheckMs := 0
         enteredBarStartMs := Option.none
         calcSt := { stC.calcSt with intraBarDeltaHistory := [] }
         volInBar := 0
         signedVolInBar := 0 }, em)
    else
      ({ st with
         barHighPx := some (max (st.barHighPx.getD px) px)
         barLowPx := some (min (st.barLowPx.getD px) px)
         liveBarHigh := some (max (st.liveBarHigh.getD px) px)
         liveBarLow := some (min (st.liveBarLow.getD px) px) }, Option.none)

/-- Accumulation stage of `onQuote` (source lines 240-280): per-tick volume
delta, per-tick signed delta for the intra-bar window, Pine-style whole-bar
delta, and the last-price / last-cumulative updates. -/
def accumStage (st : TraderState) (px cumVol : ℚ) (nowMs : ℤ) : TraderState :=
  let dVol := tickDeltaVol st.lastCumVol cumVol
  let vol' := st.volInBar + dVol
  let signed : ℚ :=
    match st.lastPrice with
    | some pp => if px > pp then dVol else if px < pp then -dVol else 0
    | Option.none => 0
  let barDelta := pineDelta px st.prevClosedBarClose vol'
  { st with
    volInBar := vol'
    signedVolInBar := barDelta
    calcSt :=
      { st.calcSt with
        intraBarDeltaHistory := st.calcSt.intraBarDeltaHistory ++ [(signed, nowMs)] }
    lastPrice := some px
    lastCumVol := some cumVol }

/-- Intra-bar stage of `onQuote` (source lines 308-315). -/
def intraBarStage (env : TimeEnv) (cfg : Config) (st : TraderState) (px : ℚ)
    (nowMs : ℤ) (equity : ℚ) (orderOk : Bool) : TraderState :=
  if cfg.useIntraBarDetection ∧ st.calcSt.currentPosition.isSome = false ∧
      st.isFlattening = false then
    if nowMs - st.lastIntraBarCheckMs ≥ cfg.intraBarCheckIntervalMs then
      checkIntraBarSignal env cfg { st with lastIntraBarCheckMs := nowMs } px nowMs
        equity orderOk
    else st
  else st

/-- Protective-exit stage of `onQuote` (source lines 282-306) followed by the
intra-bar stage.  `if (this.reconciling) return` aborts the whole handler; a
stop/trail hit initiates the async flatten, setting both in-flight flags
(completion is a separate event outside this tick). -/
def protectiveAndIntraStage (env : TimeEnv) (cfg : Config) (st : TraderState)
    (px : ℚ) (nowMs : ℤ) (equity : ℚ) (orderOk : Bool) : TraderState :=
  if st.calcSt.currentPosition.isSome ∧ st.isFlattening = false then
    if st.reconciling then st
    else
      let (hit, calc2) := onTickForProtectiveStops cfg st.calcSt px st.market.atr nowMs
      let stC := { st with calcSt := calc2 }
      let stD :=
        if hit = .hitStop ∨ hit = .hitTrail then
          { stC with reconciling := true, isFlattening := true }
        else stC
      intraBarStage env cfg stD px nowMs equity orderOk
  else intraBarStage env cfg st px nowMs equity orderOk

/-- `onQuote`: the full tick handler (price always finite in this model). -/
def onQuote (env : TimeEnv) (cfg : Config) (st : TraderState) (px cumVol : ℚ)
    (nowMs : ℤ) (equity : ℚ) (orderOk : Bool) : TraderState × Option Bar :=
  if st.running = false then (st, Option.none)
  else
    let (stA, emitted) := bucketingStage env cfg st px nowMs equity orderOk
    let stB := accumStage stA px cumVol nowMs
    (protectiveAndIntraStage env cfg stB px nowMs equity orderOk, emitted)

/-- `maybeCloseBarByClock`: heartbeat-driven bucket close; no-ops without a
known last price, and re-opens the new bucket at the just-closed price. -/
def maybeCloseBarByClock (env : TimeEnv) (cfg : Config) (st : TraderState)
    (nowMs : ℤ) (equity : ℚ) (orderOk : Bool) : TraderState × Option Bar :=
  if st.running = false then (st, Option.none)
  else
    match st.barStartMs with
    | Option.none => (st, Option.none)
    | some bs =>
      let bucketStart := bucketStartOf nowMs
      if bucketStart > bs then
        match st.lastPrice with
        | Option.none => (st, Option.none)
        | some lastPx =>
          let (stC, em) := closeBarAndProcess env cfg st equity nowMs orderOk
          ({ stC with
             barStartMs := some bucketStart
             barOpenPx := some lastPx
             barHighPx := some lastPx
             barLowPx := some lastPx
             liveBarOpen := some lastPx
             liveBarHigh := some lastPx
             liveBarLow := some lastPx
             liveBarStartMs := some nowMs
             lastIntraBarCheckMs := 0
             enteredBarStartMs := Option.none
             calcSt := { stC.calcSt with intraBarDeltaHistory := [] }
             volInBar := 0
             signedVolInBar := 0 }, em)
      else (st, Option.none)

/-! ## Helper lemmas -/

/-- Fold `onTickForProtectiveStops` over a list of `(price, atrNow, nowMs)` ticks. -/
def runProtectiveTicks (cfg : Config) (cs : CalcState) (ticks : List (ℚ × ℚ × ℤ)) :
    CalcState :=
  ticks.foldl (fun c t => (onTickForProtectiveStops cfg c t.1 t.2.1 t.2.2).2) cs

theorem trailStepLong_pos (cfg : Config) (cs : CalcState) (pos : Position) (p : ℚ) :
    ((trailStepLong cfg cs pos p).2).currentPosition = cs.currentPosition := by
  unfold trailStepLong
  dsimp only
  split_ifs <;> rfl

theorem trailStepShort_pos (cfg : Config) (cs : CalcState) (pos : Position) (p : ℚ) :
    ((trailStepShort cfg cs pos p).2).currentPosition = cs.currentPosition := by
  unfold trailStepShort
  dsimp only
  split_ifs <;> rfl

theorem trailStepLong_armed (cfg : Config) (cs : CalcState) (pos : Position) (p : ℚ)
    (h : cs.trailArmed = true) :
    ((trailStepLong cfg cs pos p).2).trailArmed = true := by
  unfold trailStepLong
  dsimp only
  split_ifs <;> simp [h]

theorem trailStepShort_armed (cfg : Config) (cs : CalcState) (pos : Position) (p : ℚ)
    (h : cs.trailArmed = true) :
    ((trailStepShort cfg cs pos p).2).trailArmed = true := by
  unfold trailStepShort
  dsimp only
  split_ifs <;> simp [h]

theorem trailStepLong_mono (cfg : Config) (cs : CalcState) (pos : Position) (p : ℚ)
    (h : cs.trailArmed = true) :
    cs.trailingStopLevel ≤ ((trailStepLong cfg cs pos p).2).trailingStopLevel := by
  unfold trailStepLong
  simp only [h, Bool.true_or, Bool.true_eq_false, false_and, if_false,
    eq_self_iff_true, if_true]
  split_ifs <;>
    first
      | exact le_refl _
      | exact le_of_lt (by assumption)

theorem trailStepShort_mono (cfg : Config) (cs : CalcState) (pos : Position) (p : ℚ)
    (h : cs.trailArmed = true) :
    ((trailStepShort cfg cs pos p).2).trailingStopLevel ≤ cs.trailingStopLevel := by
  unfold trailStepShort
  simp only [h, Bool.true_or, Bool.true_eq_false, false_and, if_false,
    eq_self_iff_true, if_true]
  split_ifs <;>
    first
      | exact le_refl _
      | exact le_of_lt (by assumption)

theorem trailStepLong_inv (cfg : Config) (cs : CalcState) (pos : Position) (p : ℚ)
    (h : pos.stopLoss ≤ cs.trailingStopLevel) :
    pos.stopLoss ≤ ((trailStepLong cfg cs pos p).2).trailingStopLevel := by
  unfold trailStepLong
  dsimp only
  split_ifs <;> simp_all [le_max_left]

theorem trailStepShort_inv (cfg : Config) (cs : CalcState) (pos : Position) (p : ℚ)
    (h : cs.trailingStopLevel ≤ pos.stopLoss) :
    ((trailStepShort cfg cs pos p).2).trailingStopLevel ≤ pos.stopLoss := by
  unfold trailStepShort
  dsimp only
  split_ifs <;> simp_all [min_le_left]

theorem protectiveStops_pos (cfg : Config) (cs : CalcState) (p a : ℚ) (n : ℤ) :
    ((onTickForProtectiveStops cfg cs p a n).2).currentPosition = cs.currentPosition := by
  unfold onTickForProtectiveStops
  split
  · rfl
  · split_ifs
    · rfl
    · rfl
    · rfl
    · rfl
    · exact trailStepLong_pos cfg cs _ p
    · exact trailStepShort_pos cfg cs _ p

theorem protectiveStops_armed (cfg : Config) (cs : CalcState) (p a : ℚ) (n : ℤ)
    (h : cs.trailArmed = true) :
    ((onTickForProtectiveStops cfg cs p a n).2).trailArmed = true := by
  unfold onTickForProtectiveStops
  split
  · exact h
  · split_ifs
    · exact h
    · exact h
    · exact h
    · exact h
    · exact trailStepLong_armed cfg cs _ p h
    · exact trailStepShort_armed cfg cs _ p h

theorem protectiveStops_mono_long (cfg : Config) (cs : CalcState) (pos : Position)
    (p a : ℚ) (n : ℤ) (hpos : cs.currentPosition = some pos)
    (hdir : pos.direction = .long) (h : cs.trailArmed = true) :
    cs.trailingStopLevel ≤ ((onTickForProtectiveStops cfg cs p a n).2).trailingStopLevel := by
  unfold onTickForProtectiveStops
  rw [hpos]
  dsimp only
  split_ifs with h1 h2 h3 h4 h5 <;>
    first
      | exact le_refl _
      | exact trailStepLong_mono cfg cs pos p h
      | exact absurd hdir (by assumption)

theorem protectiveStops_mono_short (cfg : Config) (cs : CalcState) (pos : Position)
    (p a : ℚ) (n : ℤ) (hpos : cs.currentPosition = some pos)
    (hdir : pos.direction = .short) (h : cs.trailArmed = true) :
    ((onTickForProtectiveStops cfg cs p a n).2).trailingStopLevel ≤ cs.trailingStopLevel := by
  unfold onTickForProtectiveStops
  rw [hpos]
  dsimp only
  split_ifs with h1 h2 h3 h4 h5 <;>
    first
      | exact le_refl _
      | exact trailStepShort_mono cfg cs pos p h
      | exact absurd (by assumption : pos.direction = Dir.long) (by simp [hdir])

theorem protectiveStops_inv_long (cfg : Config) (cs : CalcState) (pos : Position)
    (p a : ℚ) (n : ℤ) (hpos : cs.currentPosition = some pos)
    (hdir : pos.direction = .long) (h : pos.stopLoss ≤ cs.trailingStopLevel) :
    pos.stopLoss ≤ ((onTickForProtectiveStops cfg cs p a n).2).trailingStopLevel := by
  unfold onTickForProtectiveStops
  rw [hpos]
  dsimp only
  split_ifs with h1 h2 h3 h4 h5 <;>
    first
      | exact h
      | exact trailStepLong_inv cfg cs pos p h
      | exact absurd hdir (by assumption)

theorem protectiveStops_inv_short (cfg : Config) (cs : CalcState) (pos : Position)
    (p a : ℚ) (n : ℤ) (hpos : cs.currentPosition = some pos)
    (hdir : pos.direction = .short) (h : cs.trailingStopLevel ≤ pos.stopLoss) :
    ((onTickForProtectiveStops cfg cs p a n).2).trailingStopLevel ≤ pos.stopLoss := by
  unfold onTickForProtectiveStops
  rw [hpos]
  dsimp only
  split_ifs with h1 h2 h3 h4 h5 <;>
    first
      | exact h
      | exact trailStepShort_inv cfg cs pos p h
      | exact absurd (by assumption : pos.direction = Dir.long) (by simp [hdir])

theorem runProtectiveTicks_nil (cfg : Config) (cs : CalcState) :
    runProtectiveTicks cfg cs [] = cs := rfl

theorem runProtectiveTicks_cons (cfg : Config) (cs : CalcState) (t : ℚ × ℚ × ℤ)
    (ticks : List (ℚ × ℚ × ℤ)) :
    runProtectiveTicks cfg cs (t :: ticks) =
      runProtectiveTicks cfg ((onTickForProtectiveStops cfg cs t.1 t.2.1 t.2.2).2) ticks :=
  rfl

/-- Master invariant of folding protective-stop evaluations: the position is
untouched, armedness persists, an armed long (short) trail level never moves
down (up), and the trail level never becomes looser than the fixed stop. -/
theorem runProtectiveTicks_facts (cfg : Config) (ticks : List (ℚ × ℚ × ℤ)) :
    ∀ (cs : CalcState) (pos : Position), cs.currentPosition = some pos →
    (runProtectiveTicks cfg cs ticks).currentPosition = some pos ∧
    (cs.trailArmed = true → (runProtectiveTicks cfg cs ticks).trailArmed = true) ∧
    (pos.direction = .long → cs.trailArmed = true →
      cs.trailingStopLevel ≤ (runProtectiveTicks cfg cs ticks).trailingStopLevel) ∧
    (pos.direction = .short → cs.trailArmed = true →
      (runProtectiveTicks cfg cs ticks).trailingStopLevel ≤ cs.trailingStopLevel) ∧
    (pos.direction = .long → pos.stopLoss ≤ cs.trailingStopLevel →
      pos.stopLoss ≤ (runProtectiveTicks cfg cs ticks).trailingStopLevel) ∧
    (pos.direction = .short → cs.trailingStopLevel ≤ pos.stopLoss →
      (runProtectiveTicks cfg cs ticks).trailingStopLevel ≤ pos.stopLoss) := by
  induction ticks with
  | nil =>
    intro cs pos hpos
    refine ⟨hpos, fun h => h, fun _ _ => le_refl _, fun _ _ => le_refl _,
      fun _ h => h, fun _ h => h⟩
  | cons t ticks ih =>
    intro cs pos hpos
    rw [runProtectiveTicks_cons]
    have hpos' :
        ((onTickForProtectiveStops cfg cs t.1 t.2.1 t.2.2).2).currentPosition = some pos := by
      rw [protectiveStops_pos]; exact hpos
    obtain ⟨ih1, ih2, ih3, ih4, ih5, ih6⟩ :=
      ih ((onTickForProtectiveStops cfg cs t.1 t.2.1 t.2.2).2) pos hpos'
    refine ⟨ih1, ?_, ?_, ?_, ?_, ?_⟩
    · intro h
      exact ih2 (protectiveStops_armed cfg cs t.1 t.2.1 t.2.2 h)
    · intro hdir h
      exact le_trans (protectiveStops_mono_long cfg cs pos t.1 t.2.1 t.2.2 hpos hdir h)
        (ih3 hdir (protectiveStops_armed cfg cs t.1 t.2.1 t.2.2 h))
    · intro hdir h
      exact le_trans (ih4 hdir (protectiveStops_armed cfg cs t.1 t.2.1 t.2.2 h))
        (protectiveStops_mono_short cfg cs pos t.1 t.2.1 t.2.2 hpos hdir h)
    · intro hdir h
      exact ih5 hdir (protectiveStops_inv_long cfg cs pos t.1 t.2.1 t.2.2 hpos hdir h)
    · intro hdir h
      exact ih6 hdir (protectiveStops_inv_short cfg cs pos t.1 t.2.1 t.2.2 hpos hdir h)

theorem setPosition_stop_eq_level (cfg : Config) (cs : CalcState) (e : ℚ) (d : Dir)
    (a : Option ℚ) (n : ℤ) (pos : Position)
    (h : (setPosition cfg cs e d a n).currentPosition = some pos) :
    pos.stopLoss = (setPosition cfg cs e d a n).trailingStopLevel := by
  simp only [setPosition, Option.some.injEq] at h
  rw [← h]
  simp only [setPosition]

/-! ## Shared concrete inputs for witnesses -/

/-- The repository's `MNQ_DELTA_TREND_CONFIG` (strategy config module), with
the `'HH:MM'` session strings parsed to minutes after midnight. -/
def baseCfg : Config :=
  { tradingStartMinutes := 570
    tradingEndMinutes := 960
    deltaSMALength := 20
    deltaSpikeThreshold := 450
    deltaSurgeMultiplier := 9/5
    breakoutLookbackBars := 20
    emaLength := 21
    useEmaFilter := true
    htfEMALength := 9
    higherTimeframe := 15
    htfUseForming := true
    atrStopLossMultiplier := 3/4
    minAtrToTrade := 9
    minBarsBeforeExit := 0
    atrCap := 16
    useAtrCap := false
    tickExitGraceMs := 0
    trailActivationATR := 1/8
    trailOffsetATR := 1/8
    deltaFadeFrac := 4/5
    contractQuantity := 1
    useIntraBarDetection := true
    intraBarCheckIntervalMs := 100
    intraBarMinAccumulationMs := 2500
    intraBarConfirmationChecks := 3
    intraBarConfirmationWindowMs := 300 }

/-- `resetState` baseline: a flat calculator with empty histories. -/
def emptyCalc : CalcState :=
  { bars3min := []
    bars15min := []
    isWarmUpProcessed := false
    currentPosition := Option.none
    trailingStopLevel := 0
    trailArmed := false
    noTrailBeforeMs := 0
    lastHTFBucketStartMs := Option.none
    intraBarDeltaHistory := []
    lastIntraBarSignalTime := 0
    lastEntryBarTimestamp := Option.none
    atrAtSignal := 0 }

/-! ## Claim C2 -/

/-- C2: once the trailing stop is armed on an open position, any sequence of
`onTickForProtectiveStops` evaluations leaves the position in place, keeps
the trail armed, and never lets the trailing level retreat — for a long
position the level is monotonically non-decreasing across evaluations, for a
short position monotonically non-increasing. -/
theorem c2_trail_level_never_retreats (cfg : Config) (cs : CalcState)
    (pos : Position) (ticks : List (ℚ × ℚ × ℤ))
    (hpos : cs.currentPosition = some pos) (harmed : cs.trailArmed = true) :
    (runProtectiveTicks cfg cs ticks).currentPosition = some pos ∧
    (runProtectiveTicks cfg cs ticks).trailArmed = true ∧
    (pos.direction = .long →
      cs.trailingStopLevel ≤ (runProtectiveTicks cfg cs ticks).trailingStopLevel) ∧
    (pos.direction = .short →
      (runProtectiveTicks cfg cs ticks).trailingStopLevel ≤ cs.trailingStopLevel) := by
  obtain ⟨h1, h2, h3, h4, _, _⟩ := runProtectiveTicks_facts cfg ticks cs pos hpos
  exact ⟨h1, h2 harmed, fun hd => h3 hd harmed, fun hd => h4 hd harmed⟩

def c2wPos : Position := ⟨100, 0, .long, 97, 4, 4⟩

def c2wCalc : CalcState :=
  { emptyCalc with
    currentPosition := some c2wPos
    trailingStopLevel := 98
    trailArmed := true }

theorem c2_trail_level_never_retreats_witness :
    (c2wCalc.currentPosition = some c2wPos ∧ c2wCalc.trailArmed = true) ∧
    ((runProtectiveTicks baseCfg c2wCalc [(101, 0, 10)]).currentPosition = some c2wPos ∧
     (runProtectiveTicks baseCfg c2wCalc [(101, 0, 10)]).trailArmed = true ∧
     (c2wPos.direction = .long →
       c2wCalc.trailingStopLevel ≤
         (runProtectiveTicks baseCfg c2wCalc [(101, 0, 10)]).trailingStopLevel) ∧
     (c2wPos.direction = .short →
       (runProtectiveTicks baseCfg c2wCalc [(101, 0, 10)]).trailingStopLevel ≤
         c2wCalc.trailingStopLevel)) :=
  ⟨⟨rfl, rfl⟩,
   c2_trail_level_never_retreats baseCfg c2wCalc c2wPos [(101, 0, 10)] rfl rfl⟩

/-! ## Claim C10 -/

/-- C10: for the whole lifetime of a position the trailing stop level is never
looser than the fixed stop: starting from `setPosition` (which initialises the
trail level to the fixed stop) and folding any sequence of
`onTickForProtectiveStops` evaluations, a long position always satisfies
`stopLoss ≤ trailingStopLevel` and a short position
`trailingStopLevel ≤ stopLoss`, because every arming or ratcheting candidate
is clamped with `max`/`min` against the fixed stop. -/
theorem c10_trail_never_looser_than_fixed_stop (cfg : Config) (cs : CalcState)
    (entryPrice : ℚ) (dir : Dir) (atrForTrail : Option ℚ) (now0 : ℤ)
    (ticks : List (ℚ × ℚ × ℤ)) (pos : Position)
    (hpos : (setPosition cfg cs entryPrice dir atrForTrail now0).currentPosition
      = some pos) :
    (runProtectiveTicks cfg (setPosition cfg cs entryPrice dir atrForTrail now0)
        ticks).currentPosition = some pos ∧
    (pos.direction = .long →
      pos.stopLoss ≤ (runProtectiveTicks cfg
        (setPosition cfg cs entryPrice dir atrForTrail now0) ticks).trailingStopLevel) ∧
    (pos.direction = .short →
      (runProtectiveTicks cfg (setPosition cfg cs entryPrice dir atrForTrail now0)
        ticks).trailingStopLevel ≤ pos.stopLoss) := by
  obtain ⟨f1, _, _, _, f5, f6⟩ :=
    runProtectiveTicks_facts cfg ticks
      (setPosition cfg cs entryPrice dir atrForTrail now0) pos hpos
  have hbase := setPosition_stop_eq_level cfg cs entryPrice dir atrForTrail now0 pos hpos
  exact ⟨f1, fun hd => f5 hd (le_of_eq hbase), fun hd => f6 hd (ge_of_eq hbase)⟩

def c10wPos : Position := ⟨100, 0, .long, 97, 4, 4⟩

theorem c10_trail_never_looser_than_fixed_stop_witness :
    ((setPosition baseCfg emptyCalc 100 .long (some 4) 0).currentPosition
      = some c10wPos) ∧
    ((runProtectiveTicks baseCfg (setPosition baseCfg emptyCalc 100 .long (some 4) 0)
        [(102, 0, 5)]).currentPosition = some c10wPos ∧
     (c10wPos.direction = .long →
       c10wPos.stopLoss ≤ (runProtectiveTicks baseCfg
         (setPosition baseCfg emptyCalc 100 .long (some 4) 0)
         [(102, 0, 5)]).trailingStopLevel) ∧
     (c10wPos.direction = .short →
       (runProtectiveTicks baseCfg (setPosition baseCfg emptyCalc 100 .long (some 4) 0)
         [(102, 0, 5)]).trailingStopLevel ≤ c10wPos.stopLoss)) :=
  ⟨by norm_num [setPosition, baseCfg, emptyCalc, c10wPos],
   c10_trail_never_looser_than_fixed_stop baseCfg emptyCalc 100 .long (some 4) 0
     [(102, 0, 5)] c10wPos (by norm_num [setPosition, baseCfg, emptyCalc, c10wPos])⟩

/-! ## Claim C7 -/

theorem trueRanges_of_chain (c : ℚ) : ∀ l : List Bar,
    List.Chain' (fun a b => trueRange a b = c) l →
    trueRanges l = List.replicate (l.length - 1) c
  | [], _ => rfl
  | [_], _ => rfl
  | a :: b :: rest, h => by
    have h1 := List.chain'_cons.mp h
    rw [trueRanges, h1.1, trueRanges_of_chain c (b :: rest) h1.2]
    simp [List.replicate_succ]

theorem chain'_of_replicate {α : Type} {R : α → α → Prop} (a : α) (h : R a a) :
    ∀ n : ℕ, List.Chain' R (List.replicate n a)
  | 0 => List.chain'_nil
  | 1 => List.chain'_singleton a
  | (n + 2) => by
    rw [List.replicate_succ, List.replicate_succ]
    exact List.chain'_cons.mpr
      ⟨h, by simpa [List.replicate_succ] using chain'_of_replicate a h (n + 1)⟩

/-- C7: on any base-timeframe history of at least 15 bars whose every
adjacent-pair true range equals the constant `c`, `calculateATR` returns
exactly `c` — the seed average of the first 14 true ranges is `c`, and `c` is
a fixed point of the Wilder recurrence (which, over the 15-bar tail the
source collects, has no remaining smoothing step). -/
theorem c7_atr_constant_range_fixed_point (bars : List Bar) (c : ℚ)
    (hn : atrPeriod + 1 ≤ bars.length)
    (hc : List.Chain' (fun a b => trueRange a b = c) bars) :
    calculateATR bars = some c := by
  have hsuffix : (bars.reverse.take (atrPeriod + 1)).reverse <:+ bars := by
    have := (List.reverse_suffix).mpr (List.take_prefix (atrPeriod + 1) bars.reverse)
    simpa using this
  have h15 : ((bars.reverse.take (atrPeriod + 1)).reverse).length = atrPeriod + 1 := by
    simp only [List.length_reverse, List.length_take]
    omega
  have hchain : List.Chain' (fun a b => trueRange a b = c)
      ((bars.reverse.take (atrPeriod + 1)).reverse) := hc.suffix hsuffix
  have htr : trueRanges ((bars.reverse.take (atrPeriod + 1)).reverse)
      = List.replicate atrPeriod c := by
    rw [trueRanges_of_chain c _ hchain, h15, Nat.add_sub_cancel]
  unfold calculateATR
  rw [if_neg (not_lt.mpr hn)]
  dsimp only
  rw [htr, h15]
  rw [if_neg (lt_irrefl _)]
  rw [if_neg (by simp [List.length_replicate])]
  rw [List.take_replicate, List.drop_replicate, min_self, Nat.sub_self]
  rw [List.sum_replicate, nsmul_eq_mul]
  unfold wilderSmooth
  rw [List.replicate_zero, List.foldl_nil]
  have hne : ((atrPeriod : ℚ)) ≠ 0 := by norm_num [atrPeriod]
  rw [mul_div_cancel_left₀ c hne]

def c7wBar : Bar := ⟨0, 101, 105, 100, 102, 0, 0⟩

theorem c7_atr_constant_range_fixed_point_witness :
    (atrPeriod + 1 ≤ (List.replicate 15 c7wBar).length ∧
     List.Chain' (fun a b => trueRange a b = 5) (List.replicate 15 c7wBar)) ∧
    calculateATR (List.replicate 15 c7wBar) = some 5 := by
  have hR : trueRange c7wBar c7wBar = 5 := by norm_num [trueRange, c7wBar]
  have hch := @chain'_of_replicate Bar (fun a b => trueRange a b = 5) c7wBar hR 15
  have hlen : atrPeriod + 1 ≤ (List.replicate 15 c7wBar).length := by
    simp [List.length_replicate, atrPeriod]
  exact ⟨⟨hlen, hch⟩,
    c7_atr_constant_range_fixed_point (List.replicate 15 c7wBar) 5 hlen hch⟩

/-! ## Claim C8 -/

theorem fadePassClosed_true_of_eq (cfg : Config) (bars : List Bar) (δ : ℚ)
    (heq : |δ| = closedBarPeakAbs bars δ * cfg.deltaFadeFrac) :
    fadePassClosed cfg bars δ = true := by
  unfold fadePassClosed
  simp only [Bool.or_eq_true, decide_eq_true_eq]
  exact Or.inr (le_of_eq heq.symm)

theorem fadePassClosed_false_of_lt (cfg : Config) (bars : List Bar) (δ : ℚ)
    (hP : closedBarPeakAbs bars δ ≠ 0)
    (hlt : |δ| < closedBarPeakAbs bars δ * cfg.deltaFadeFrac) :
    fadePassClosed cfg bars δ = false := by
  unfold fadePassClosed
  simp only [Bool.or_eq_false_iff, decide_eq_false_iff_not]
  exact ⟨hP, not_le.mpr hlt⟩

theorem fadePassIntra_true_of_eq (cfg : Config) (hist : List (ℚ × ℤ)) (δ : ℚ)
    (heq : |δ| = intraPeakAbs hist δ * cfg.deltaFadeFrac) :
    fadePassIntra cfg hist δ = true := by
  unfold fadePassIntra
  simp only [Bool.or_eq_true, decide_eq_true_eq]
  exact Or.inr (le_of_eq heq.symm)

theorem fadePassIntra_false_of_lt (cfg : Config) (hist : List (ℚ × ℤ)) (δ : ℚ)
    (hP : intraPeakAbs hist δ ≠ 0)
    (hlt : |δ| < intraPeakAbs hist δ * cfg.deltaFadeFrac) :
    fadePassIntra cfg hist δ = false := by
  unfold fadePassIntra
  simp only [Bool.or_eq_false_iff, decide_eq_false_iff_not]
  exact ⟨hP, not_le.mpr hlt⟩

/-- C8: fade-filter boundary on both evaluation paths.  With peak magnitude
`P` nonzero and fade ratio `R`: a current delta magnitude of exactly `P×R`
passes the fade filter (the result is never the fade hold), while any
strictly smaller magnitude makes the evaluation hold — on the closed-bar path
(`generateSignal`, peak = max of the previous bar's and current magnitudes,
present once at least two bars exist) and on the intra-bar path
(`generateSignalForFormingBar`, peak over the intra-bar history and the
current sample). -/
theorem c8_fade_filter_boundary (cfg : Config) (cs : CalcState) (bar : Bar)
    (ms : MarketState) (g : Gates) (fb : Bar) :
    ((|bar.delta| = closedBarPeakAbs cs.bars3min bar.delta * cfg.deltaFadeFrac →
      (generateSignal cfg cs bar ms g).1.reason ≠ .fadeBarClose) ∧
     (2 ≤ cs.bars3min.length →
      closedBarPeakAbs cs.bars3min bar.delta ≠ 0 →
      |bar.delta| < closedBarPeakAbs cs.bars3min bar.delta * cfg.deltaFadeFrac →
      (generateSignal cfg cs bar ms g).1.signal = .hold)) ∧
    ((|fb.delta| = intraPeakAbs cs.intraBarDeltaHistory fb.delta * cfg.deltaFadeFrac →
      (generateSignalForFormingBar cfg cs fb ms g).reason ≠ .fadeIntra) ∧
     (intraPeakAbs cs.intraBarDeltaHistory fb.delta ≠ 0 →
      |fb.delta| < intraPeakAbs cs.intraBarDeltaHistory fb.delta * cfg.deltaFadeFrac →
      (generateSignalForFormingBar cfg cs fb ms g).signal = .hold)) := by
  constructor
  · constructor
    · intro heq
      have hpass := fadePassClosed_true_of_eq cfg cs.bars3min bar.delta heq
      unfold generateSignal
      dsimp only
      by_cases h1 : cs.lastEntryBarTimestamp = some bar.timestamp
      · rw [if_pos h1]; simp
      · rw [if_neg h1]
        by_cases h2 : ¬ (ms.atr > cfg.minAtrToTrade)
        · rw [if_pos h2]; simp
        · rw [if_neg h2]
          split
          · simp
          · rw [if_neg (by simp [hpass])]
            split_ifs <;> simp
    · intro hlen hP hlt
      have hfail := fadePassClosed_false_of_lt cfg cs.bars3min bar.delta hP hlt
      unfold generateSignal
      dsimp only
      by_cases h1 : cs.lastEntryBarTimestamp = some bar.timestamp
      · rw [if_pos h1]
      · rw [if_neg h1]
        by_cases h2 : ¬ (ms.atr > cfg.minAtrToTrade)
        · rw [if_pos h2]
        · rw [if_neg h2]
          split
          · rfl
          · rw [if_pos ⟨hlen, hfail⟩]
  · constructor
    · intro heq
      have hpass := fadePassIntra_true_of_eq cfg cs.intraBarDeltaHistory fb.delta heq
      unfold generateSignalForFormingBar
      dsimp only
      by_cases h1 : ¬ (ms.atr > cfg.minAtrToTrade)
      · rw [if_pos h1]; simp
      · rw [if_neg h1]
        split
        · simp
        · rw [if_neg (by simp [hpass])]
          split_ifs <;> simp
    · intro hP hlt
      have hfail := fadePassIntra_false_of_lt cfg cs.intraBarDeltaHistory fb.delta hP hlt
      unfold generateSignalForFormingBar
      dsimp only
      by_cases h1 : ¬ (ms.atr > cfg.minAtrToTrade)
      · rw [if_pos h1]
      · rw [if_neg h1]
        split
        · rfl
        · rw [if_pos (by simp [hfail])]

def c8wPrev : Bar := ⟨0, 100, 100, 100, 100, 0, 500⟩

def c8wBarEq : Bar := ⟨1, 100, 100, 100, 100, 0, 400⟩

def c8wBarLt : Bar := ⟨1, 100, 100, 100, 100, 0, 399⟩

def c8wCalcEq : CalcState :=
  { emptyCalc with
    bars3min := [c8wPrev, c8wBarEq]
    intraBarDeltaHistory := [(500, 0)] }

def c8wCalcLt : CalcState :=
  { emptyCalc with
    bars3min := [c8wPrev, c8wBarLt]
    intraBarDeltaHistory := [(500, 0)] }

def c8wMs : MarketState := ⟨10, .bullish, 0⟩

def c8wGates : Gates := ⟨true, false, true, true⟩

theorem c8_fade_filter_boundary_witness :
    (|c8wBarEq.delta| =
        closedBarPeakAbs c8wCalcEq.bars3min c8wBarEq.delta * baseCfg.deltaFadeFrac ∧
     (generateSignal baseCfg c8wCalcEq c8wBarEq c8wMs c8wGates).1.reason ≠ .fadeBarClose) ∧
    ((2 ≤ c8wCalcLt.bars3min.length ∧
      closedBarPeakAbs c8wCalcLt.bars3min c8wBarLt.delta ≠ 0 ∧
      |c8wBarLt.delta| <
        closedBarPeakAbs c8wCalcLt.bars3min c8wBarLt.delta * baseCfg.deltaFadeFrac) ∧
     (generateSignal baseCfg c8wCalcLt c8wBarLt c8wMs c8wGates).1.signal = .hold) ∧
    (|c8wBarEq.delta| =
        intraPeakAbs c8wCalcEq.intraBarDeltaHistory c8wBarEq.delta * baseCfg.deltaFadeFrac ∧
     (generateSignalForFormingBar baseCfg c8wCalcEq c8wBarEq c8wMs c8wGates).reason
       ≠ .fadeIntra) ∧
    ((intraPeakAbs c8wCalcLt.intraBarDeltaHistory c8wBarLt.delta ≠ 0 ∧
      |c8wBarLt.delta| <
        intraPeakAbs c8wCalcLt.intraBarDeltaHistory c8wBarLt.delta * baseCfg.deltaFadeFrac) ∧
     (generateSignalForFormingBar baseCfg c8wCalcLt c8wBarLt c8wMs c8wGates).signal
       = .hold) := by
  have heqC : |c8wBarEq.delta| =
      closedBarPeakAbs c8wCalcEq.bars3min c8wBarEq.delta * baseCfg.deltaFadeFrac := by
    norm_num [closedBarPeakAbs, c8wCalcEq, c8wPrev, c8wBarEq, emptyCalc, baseCfg]
  have hlenL : 2 ≤ c8wCalcLt.bars3min.length := by
    norm_num [c8wCalcLt, emptyCalc]
  have hPC : closedBarPeakAbs c8wCalcLt.bars3min c8wBarLt.delta ≠ 0 := by
    norm_num [closedBarPeakAbs, c8wCalcLt, c8wPrev, c8wBarLt, emptyCalc]
  have hltC : |c8wBarLt.delta| <
      closedBarPeakAbs c8wCalcLt.bars3min c8wBarLt.delta * baseCfg.deltaFadeFrac := by
    norm_num [closedBarPeakAbs, c8wCalcLt, c8wPrev, c8wBarLt, emptyCalc, baseCfg]
  have heqI : |c8wBarEq.delta| =
      intraPeakAbs c8wCalcEq.intraBarDeltaHistory c8wBarEq.delta * baseCfg.deltaFadeFrac := by
    norm_num [intraPeakAbs, c8wCalcEq, c8wBarEq, emptyCalc, baseCfg]
  have hPI : intraPeakAbs c8wCalcLt.intraBarDeltaHistory c8wBarLt.delta ≠ 0 := by
    norm_num [intraPeakAbs, c8wCalcLt, c8wBarLt, emptyCalc]
  have hltI : |c8wBarLt.delta| <
      intraPeakAbs c8wCalcLt.intraBarDeltaHistory c8wBarLt.delta * baseCfg.deltaFadeFrac := by
    norm_num [intraPeakAbs, c8wCalcLt, c8wBarLt, emptyCalc, baseCfg]
  refine ⟨⟨heqC, ?_⟩, ⟨⟨hlenL, hPC, hltC⟩, ?_⟩, ⟨heqI, ?_⟩, ⟨⟨hPI, hltI⟩, ?_⟩⟩
  · exact (c8_fade_filter_boundary baseCfg c8wCalcEq c8wBarEq c8wMs c8wGates
      c8wBarEq).1.1 heqC
  · exact (c8_fade_filter_boundary baseCfg c8wCalcLt c8wBarLt c8wMs c8wGates
      c8wBarLt).1.2 hlenL hPC hltC
  · exact (c8_fade_filter_boundary baseCfg c8wCalcEq c8wBarEq c8wMs c8wGates
      c8wBarEq).2.1 heqI
  · exact (c8_fade_filter_boundary baseCfg c8wCalcLt c8wBarLt c8wMs c8wGates
      c8wBarLt).2.2 hPI hltI

/-! ## Claim C9 -/

def c9wBarAt (i : ℤ) (d : ℚ) : Bar := ⟨i, 100, 100, 100, 100, 0, d⟩

/-- Twenty closed bars whose deltas sum to 4000, so the 20-bar delta SMA over
the window ending at the evaluated bar is exactly 200. -/
def c9wBars : List Bar :=
  List.replicate 18 (c9wBarAt 0 184) ++ [c9wBarAt 18 188, c9wBarAt 19 500]

def c9wBar : Bar := c9wBarAt 19 500

def c9wCalc : CalcState :=
  { emptyCalc with
    bars3min := c9wBars
    isWarmUpProcessed := true }

def c9wCfg : Config := { baseCfg with useEmaFilter := false }

def c9wMs : MarketState := ⟨10, .bullish, 0⟩

def c9wGates : Gates := ⟨true, false, true, true⟩

/-- C9: with delta 500, a 20-bar delta SMA of 200, spike threshold 450, surge
multiplier 1.8 (threshold 360 < 500), bullish HTF trend, breakout-up true,
EMA filter disabled, and ATR 10 above minAtr 9, `generateSignal` returns buy
with confidence 0.9 and records the bar's timestamp; re-evaluating a bar with
that same timestamp afterwards returns hold (same-bar re-entry blocked) even
though every other gate still passes. -/
theorem c9_buy_then_same_bar_blocked :
    smaSignedDelta c9wCalc.bars3min (max 1 c9wCfg.deltaSMALength) = some 200 ∧
    (generateSignal c9wCfg c9wCalc c9wBar c9wMs c9wGates).1
      = ⟨.buy, .buyClosed, 9/10⟩ ∧
    ((generateSignal c9wCfg c9wCalc c9wBar c9wMs c9wGates).2).lastEntryBarTimestamp
      = some c9wBar.timestamp ∧
    (generateSignal c9wCfg
        ((generateSignal c9wCfg c9wCalc c9wBar c9wMs c9wGates).2)
        c9wBar c9wMs c9wGates).1
      = ⟨.hold, .sameBarReentry, 0⟩ := by
  have hlen : c9wBars.length = 20 := by
    simp [c9wBars]
  have hsma : smaSignedDelta c9wCalc.bars3min (max 1 c9wCfg.deltaSMALength)
      = some 200 := by
    show smaSignedDelta c9wBars (max 1 c9wCfg.deltaSMALength) = some 200
    have hn : max 1 c9wCfg.deltaSMALength = 20 := by
      norm_num [c9wCfg, baseCfg]
    rw [hn]
    unfold smaSignedDelta
    rw [if_neg (by simp [hlen]), if_neg (by simp [hlen]), hlen]
    norm_num [c9wBars, c9wBarAt, List.map_append, List.map_replicate,
      List.sum_append, List.sum_replicate]
  have h18 : c9wBars[c9wBars.length - 2]? = some (c9wBarAt 18 188) := by
    rw [hlen]
    show (List.replicate 18 (c9wBarAt 0 184)
      ++ [c9wBarAt 18 188, c9wBarAt 19 500])[18]? = _
    rw [List.getElem?_append_right (by simp)]
    simp
  have hfade : fadePassClosed c9wCfg c9wCalc.bars3min c9wBar.delta = true := by
    show fadePassClosed c9wCfg c9wBars c9wBar.delta = true
    unfold fadePassClosed closedBarPeakAbs
    dsimp only
    rw [h18]
    norm_num [c9wBar, c9wBarAt, c9wCfg, baseCfg]
  have hfirst : generateSignal c9wCfg c9wCalc c9wBar c9wMs c9wGates
      = (⟨.buy, .buyClosed, 9/10⟩,
         { c9wCalc with lastEntryBarTimestamp := some c9wBar.timestamp }) := by
    unfold generateSignal
    dsimp only
    rw [if_neg (by simp [c9wCalc, emptyCalc])]
    rw [if_neg (by norm_num [c9wMs, c9wCfg, baseCfg])]
    rw [hsma]
    dsimp only
    rw [if_neg (by simp [hfade])]
    rw [if_pos ⟨by norm_num [c9wBar, c9wBarAt, c9wCfg, baseCfg], rfl, rfl⟩]
    rw [if_neg (by simp [c9wCfg, baseCfg])]
  refine ⟨hsma, ?_, ?_, ?_⟩
  · rw [hfirst]
  · rw [hfirst]
  · rw [hfirst]
    unfold generateSignal
    rw [if_pos rfl]

/-! ## Frame lemmas: the execution stages never touch the aggregator fields -/

/-- Aggregator-owned fields of `TraderState` untouched by entry execution,
the protective-stop stage and the intra-bar stage. -/
def AggFieldsEq (a b : TraderState) : Prop :=
  a.running = b.running ∧
  a.lastPrice = b.lastPrice ∧
  a.lastCumVol = b.lastCumVol ∧
  a.signedVolInBar = b.signedVolInBar ∧
  a.volInBar = b.volInBar ∧
  a.prevClosedBarClose = b.prevClosedBarClose ∧
  a.barStartMs = b.barStartMs ∧
  a.barOpenPx = b.barOpenPx ∧
  a.barHighPx = b.barHighPx ∧
  a.barLowPx = b.barLowPx ∧
  a.liveBarOpen = b.liveBarOpen ∧
  a.liveBarHigh = b.liveBarHigh ∧
  a.liveBarLow = b.liveBarLow ∧
  a.liveBarStartMs = b.liveBarStartMs

theorem aggFieldsEq_refl (a : TraderState) : AggFieldsEq a a :=
  ⟨rfl, rfl, rfl, rfl, rfl, rfl, rfl, rfl, rfl, rfl, rfl, rfl, rfl, rfl⟩

theorem aggFieldsEq_trans {a b c : TraderState}
    (h1 : AggFieldsEq a b) (h2 : AggFieldsEq b c) : AggFieldsEq a c := by
  obtain ⟨a1, a2, a3, a4, a5, a6, a7, a8, a9, a10, a11, a12, a13, a14⟩ := h1
  obtain ⟨b1, b2, b3, b4, b5, b6, b7, b8, b9, b10, b11, b12, b13, b14⟩ := h2
  exact ⟨a1.trans b1, a2.trans b2, a3.trans b3, a4.trans b4, a5.trans b5,
    a6.trans b6, a7.trans b7, a8.trans b8, a9.trans b9, a10.trans b10,
    a11.trans b11, a12.trans b12, a13.trans b13, a14.trans b14⟩

theorem handleSignal_agg (cfg : Config) (st : TraderState) (sig : SigKind)
    (bar : Bar) (equity : ℚ) (nowMs : ℤ) (orderOk : Bool) :
    AggFieldsEq ((handleSignal cfg st sig bar equity nowMs orderOk).1) st := by
  unfold handleSignal
  split_ifs <;>
    exact ⟨rfl, rfl, rfl, rfl, rfl, rfl, rfl, rfl, rfl, rfl, rfl, rfl, rfl, rfl⟩

theorem checkIntraBarSignal_agg (env : TimeEnv) (cfg : Config) (st : TraderState)
    (px : ℚ) (nowMs : ℤ) (equity : ℚ) (orderOk : Bool) :
    AggFieldsEq (checkIntraBarSignal env cfg st px nowMs equity orderOk) st := by
  unfold checkIntraBarSignal
  split
  · exact aggFieldsEq_refl _
  · dsimp only
    split_ifs
    · exact aggFieldsEq_trans (handleSignal_agg _ _ _ _ _ _ _)
        ⟨rfl, rfl, rfl, rfl, rfl, rfl, rfl, rfl, rfl, rfl, rfl, rfl, rfl, rfl⟩
    · exact ⟨rfl, rfl, rfl, rfl, rfl, rfl, rfl, rfl, rfl, rfl, rfl, rfl, rfl, rfl⟩

theorem intraBarStage_agg (env : TimeEnv) (cfg : Config) (st : TraderState)
    (px : ℚ) (nowMs : ℤ) (equity : ℚ) (orderOk : Bool) :
    AggFieldsEq (intraBarStage env cfg st px nowMs equity orderOk) st := by
  unfold intraBarStage
  split_ifs
  · exact aggFieldsEq_trans (checkIntraBarSignal_agg _ _ _ _ _ _ _)
      ⟨rfl, rfl, rfl, rfl, rfl, rfl, rfl, rfl, rfl, rfl, rfl, rfl, rfl, rfl⟩
  · exact aggFieldsEq_refl _
  · exact aggFieldsEq_refl _

theorem protectiveAndIntraStage_agg (env : TimeEnv) (cfg : Config)
    (st : TraderState) (px : ℚ) (nowMs : ℤ) (equity : ℚ) (orderOk : Bool) :
    AggFieldsEq (protectiveAndIntraStage env cfg st px nowMs equity orderOk) st := by
  unfold protectiveAndIntraStage
  split_ifs
  · exact aggFieldsEq_refl _
  · dsimp only
    split_ifs <;>
      exact aggFieldsEq_trans (intraBarStage_agg _ _ _ _ _ _ _)
        ⟨rfl, rfl, rfl, rfl, rfl, rfl, rfl, rfl, rfl, rfl, rfl, rfl, rfl, rfl⟩
  · exact aggFieldsEq_trans (intraBarStage_agg _ _ _ _ _ _ _) (aggFieldsEq_refl _)

theorem handleSignal_running (cfg : Config) (st : TraderState) (sig : SigKind)
    (bar : Bar) (e : ℚ) (n : ℤ) (ok : Bool) :
    ((handleSignal cfg st sig bar e n ok).1).running = st.running :=
  (handleSignal_agg cfg st sig bar e n ok).1

theorem handleSignal_lastPrice (cfg : Config) (st : TraderState) (sig : SigKind)
    (bar : Bar) (e : ℚ) (n : ℤ) (ok : Bool) :
    ((handleSignal cfg st sig bar e n ok).1).lastPrice = st.lastPrice :=
  (handleSignal_agg cfg st sig bar e n ok).2.1

theorem handleSignal_lastCumVol (cfg : Config) (st : TraderState) (sig : SigKind)
    (bar : Bar) (e : ℚ) (n : ℤ) (ok : Bool) :
    ((handleSignal cfg st sig bar e n ok).1).lastCumVol = st.lastCumVol :=
  (handleSignal_agg cfg st sig bar e n ok).2.2.1

theorem handleSignal_barStartMs (cfg : Config) (st : TraderState) (sig : SigKind)
    (bar : Bar) (e : ℚ) (n : ℤ) (ok : Bool) :
    ((handleSignal cfg st sig bar e n ok).1).barStartMs = st.barStartMs :=
  (handleSignal_agg cfg st sig bar e n ok).2.2.2.2.2.2.1

theorem handleSignal_liveBarOpen (cfg : Config) (st : TraderState) (sig : SigKind)
    (bar : Bar) (e : ℚ) (n : ℤ) (ok : Bool) :
    ((handleSignal cfg st sig bar e n ok).1).liveBarOpen = st.liveBarOpen :=
  (handleSignal_agg cfg st sig bar e n ok).2.2.2.2.2.2.2.2.2.2.1

theorem handleSignal_liveBarHigh (cfg : Config) (st : TraderState) (sig : SigKind)
    (bar : Bar) (e : ℚ) (n : ℤ) (ok : Bool) :
    ((handleSignal cfg st sig bar e n ok).1).liveBarHigh = st.liveBarHigh :=
  (handleSignal_agg cfg st sig bar e n ok).2.2.2.2.2.2.2.2.2.2.2.1

theorem handleSignal_liveBarLow (cfg : Config) (st : TraderState) (sig : SigKind)
    (bar : Bar) (e : ℚ) (n : ℤ) (ok : Bool) :
    ((handleSignal cfg st sig bar e n ok).1).liveBarLow = st.liveBarLow :=
  (handleSignal_agg cfg st sig bar e n ok).2.2.2.2.2.2.2.2.2.2.2.2.1

theorem handleSignal_liveBarStartMs (cfg : Config) (st : TraderState) (sig : SigKind)
    (bar : Bar) (e : ℚ) (n : ℤ) (ok : Bool) :
    ((handleSignal cfg st sig bar e n ok).1).liveBarStartMs = st.liveBarStartMs :=
  (handleSignal_agg cfg st sig bar e n ok).2.2.2.2.2.2.2.2.2.2.2.2.2

theorem protIntra_lastPrice (env : TimeEnv) (cfg : Config) (st : TraderState)
    (px : ℚ) (n : ℤ) (e : ℚ) (ok : Bool) :
    (protectiveAndIntraStage env cfg st px n e ok).lastPrice = st.lastPrice :=
  (protectiveAndIntraStage_agg env cfg st px n e ok).2.1

theorem protIntra_lastCumVol (env : TimeEnv) (cfg : Config) (st : TraderState)
    (px : ℚ) (n : ℤ) (e : ℚ) (ok : Bool) :
    (protectiveAndIntraStage env cfg st px n e ok).lastCumVol = st.lastCumVol :=
  (protectiveAndIntraStage_agg env cfg st px n e ok).2.2.1

theorem protIntra_signedVolInBar (env : TimeEnv) (cfg : Config) (st : TraderState)
    (px : ℚ) (n : ℤ) (e : ℚ) (ok : Bool) :
    (protectiveAndIntraStage env cfg st px n e ok).signedVolInBar = st.signedVolInBar :=
  (protectiveAndIntraStage_agg env cfg st px n e ok).2.2.2.1

theorem protIntra_volInBar (env : TimeEnv) (cfg : Config) (st : TraderState)
    (px : ℚ) (n : ℤ) (e : ℚ) (ok : Bool) :
    (protectiveAndIntraStage env cfg st px n e ok).volInBar = st.volInBar :=
  (protectiveAndIntraStage_agg env cfg st px n e ok).2.2.2.2.1

theorem protIntra_prevClosedBarClose (env : TimeEnv) (cfg : Config) (st : TraderState)
    (px : ℚ) (n : ℤ) (e : ℚ) (ok : Bool) :
    (protectiveAndIntraStage env cfg st px n e ok).prevClosedBarClose
      = st.prevClosedBarClose :=
  (protectiveAndIntraStage_agg env cfg st px n e ok).2.2.2.2.2.1

theorem protIntra_barStartMs (env : TimeEnv) (cfg : Config) (st : TraderState)
    (px : ℚ) (n : ℤ) (e : ℚ) (ok : Bool) :
    (protectiveAndIntraStage env cfg st px n e ok).barStartMs = st.barStartMs :=
  (protectiveAndIntraStage_agg env cfg st px n e ok).2.2.2.2.2.2.1

theorem protIntra_barOpenPx (env : TimeEnv) (cfg : Config) (st : TraderState)
    (px : ℚ) (n : ℤ) (e : ℚ) (ok : Bool) :
    (protectiveAndIntraStage env cfg st px n e ok).barOpenPx = st.barOpenPx :=
  (protectiveAndIntraStage_agg env cfg st px n e ok).2.2.2.2.2.2.2.1

/-- Fields of the trader state that survive `closeBarAndProcess` unchanged. -/
theorem closeBarAndProcess_preserved (env : TimeEnv) (cfg : Config)
    (st : TraderState) (equity : ℚ) (nowMs : ℤ) (orderOk : Bool) :
    ((closeBarAndProcess env cfg st equity nowMs orderOk).1).running = st.running ∧
    ((closeBarAndProcess env cfg st equity nowMs orderOk).1).lastPrice = st.lastPrice ∧
    ((closeBarAndProcess env cfg st equity nowMs orderOk).1).lastCumVol = st.lastCumVol ∧
    ((closeBarAndProcess env cfg st equity nowMs orderOk).1).barStartMs = st.barStartMs ∧
    ((closeBarAndProcess env cfg st equity nowMs orderOk).1).liveBarOpen = st.liveBarOpen ∧
    ((closeBarAndProcess env cfg st equity nowMs orderOk).1).liveBarHigh = st.liveBarHigh ∧
    ((closeBarAndProcess env cfg st equity nowMs orderOk).1).liveBarLow = st.liveBarLow ∧
    ((closeBarAndProcess env cfg st equity nowMs orderOk).1).liveBarStartMs
      = st.liveBarStartMs := by
  unfold closeBarAndProcess
  split
  · split
    · exact ⟨rfl, rfl, rfl, rfl, rfl, rfl, rfl, rfl⟩
    · dsimp only
      split_ifs <;>
        refine ⟨?_, ?_, ?_, ?_, ?_, ?_, ?_, ?_⟩ <;>
        first
          | rfl
          | rw [handleSignal_running]
          | rw [handleSignal_lastPrice]
          | rw [handleSignal_lastCumVol]
          | rw [handleSignal_barStartMs]
          | rw [handleSignal_liveBarOpen]
          | rw [handleSignal_liveBarHigh]
          | rw [handleSignal_liveBarLow]
          | rw [handleSignal_liveBarStartMs]
  · exact ⟨rfl, rfl, rfl, rfl, rfl, rfl, rfl, rfl⟩

theorem accumStage_volInBar (st : TraderState) (px cumVol : ℚ) (nowMs : ℤ) :
    (accumStage st px cumVol nowMs).volInBar
      = st.volInBar + tickDeltaVol st.lastCumVol cumVol := rfl

theorem accumStage_signedVolInBar (st : TraderState) (px cumVol : ℚ) (nowMs : ℤ) :
    (accumStage st px cumVol nowMs).signedVolInBar
      = pineDelta px st.prevClosedBarClose
          (st.volInBar + tickDeltaVol st.lastCumVol cumVol) := rfl

theorem accumStage_prevClosedBarClose (st : TraderState) (px cumVol : ℚ) (nowMs : ℤ) :
    (accumStage st px cumVol nowMs).prevClosedBarClose = st.prevClosedBarClose := rfl

theorem accumStage_barOpenPx (st : TraderState) (px cumVol : ℚ) (nowMs : ℤ) :
    (accumStage st px cumVol nowMs).barOpenPx = st.barOpenPx := rfl

theorem bucketingStage_lastCumVol (env : TimeEnv) (cfg : Config) (st : TraderState)
    (px : ℚ) (nowMs : ℤ) (equity : ℚ) (ok : Bool) :
    ((bucketingStage env cfg st px nowMs equity ok).1).lastCumVol = st.lastCumVol := by
  unfold bucketingStage
  split
  · rfl
  · dsimp only
    split_ifs
    · exact (closeBarAndProcess_preserved env cfg st equity nowMs ok).2.2.1
    · rfl

theorem bucketingStage_volInBar (env : TimeEnv) (cfg : Config) (st : TraderState)
    (px : ℚ) (nowMs : ℤ) (equity : ℚ) (ok : Bool) :
    ((bucketingStage env cfg st px nowMs equity ok).1).volInBar = 0 ∨
    ((bucketingStage env cfg st px nowMs equity ok).1).volInBar = st.volInBar := by
  unfold bucketingStage
  split
  · exact Or.inl rfl
  · dsimp only
    split_ifs
    · exact Or.inl rfl
    · exact Or.inr rfl

/-- In the non-rollover branch the bucketing stage only widens the extremes. -/
theorem bucketingStage_extend (env : TimeEnv) (cfg : Config) (st : TraderState)
    (px : ℚ) (nowMs : ℤ) (equity : ℚ) (ok : Bool) (bs : ℤ)
    (h : st.barStartMs = some bs) (h2 : ¬ bucketStartOf nowMs > bs) :
    bucketingStage env cfg st px nowMs equity ok =
      ({ st with
         barHighPx := some (max (st.barHighPx.getD px) px)
         barLowPx := some (min (st.barLowPx.getD px) px)
         liveBarHigh := some (max (st.liveBarHigh.getD px) px)
         liveBarLow := some (min (st.liveBarLow.getD px) px) }, Option.none) := by
  unfold bucketingStage
  rw [h]
  dsimp only
  rw [if_neg h2]

/-- `onQuote` on a running trader is the three-stage pipeline. -/
theorem onQuote_running (env : TimeEnv) (cfg : Config) (st : TraderState)
    (px cumVol : ℚ) (nowMs : ℤ) (equity : ℚ) (ok : Bool)
    (hrun : st.running = true) :
    onQuote env cfg st px cumVol nowMs equity ok =
      (protectiveAndIntraStage env cfg
        (accumStage ((bucketingStage env cfg st px nowMs equity ok).1) px cumVol nowMs)
        px nowMs equity ok,
       (bucketingStage env cfg st px nowMs equity ok).2) := by
  unfold onQuote
  rw [if_neg (by simp [hrun])]

theorem protIntra_running (env : TimeEnv) (cfg : Config) (st : TraderState)
    (px : ℚ) (n : ℤ) (e : ℚ) (ok : Bool) :
    (protectiveAndIntraStage env cfg st px n e ok).running = st.running :=
  (protectiveAndIntraStage_agg env cfg st px n e ok).1

theorem accumStage_lastCumVol (st : TraderState) (px cumVol : ℚ) (nowMs : ℤ) :
    (accumStage st px cumVol nowMs).lastCumVol = some cumVol := rfl

theorem accumStage_barStartMs (st : TraderState) (px cumVol : ℚ) (nowMs : ℤ) :
    (accumStage st px cumVol nowMs).barStartMs = st.barStartMs := rfl

theorem accumStage_running (st : TraderState) (px cumVol : ℚ) (nowMs : ℤ) :
    (accumStage st px cumVol nowMs).running = st.running := rfl

/-- First-tick branch of the bucketing stage. -/
theorem bucketingStage_first (env : TimeEnv) (cfg : Config) (st : TraderState)
    (px : ℚ) (nowMs : ℤ) (equity : ℚ) (ok : Bool)
    (h : st.barStartMs = Option.none) :
    bucketingStage env cfg st px nowMs equity ok =
      ({ st with
         barStartMs := some (bucketStartOf nowMs)
         barOpenPx := some px
         barHighPx := some px
         barLowPx := some px
         liveBarOpen := some px
         liveBarHigh := some px
         liveBarLow := some px
         liveBarStartMs := some nowMs
         volInBar := 0
         signedVolInBar := 0 }, Option.none) := by
  unfold bucketingStage
  rw [h]

theorem tickDeltaVol_nonneg (prev : Option ℚ) (cum : ℚ) (h : 0 ≤ cum) :
    0 ≤ tickDeltaVol prev cum := by
  unfold tickDeltaVol
  cases prev with
  | none => exact h
  | some p =>
    dsimp only
    split_ifs with hp
    · exact sub_nonneg.mpr hp
    · exact h

/-- Facts about a tick processed on the very first tick ever. -/
theorem onQuote_first_tick_facts (env : TimeEnv) (cfg : Config) (s : TraderState)
    (px cum : ℚ) (nowMs : ℤ) (e : ℚ) (ok : Bool)
    (hrun : s.running = true) (hbs : s.barStartMs = Option.none) :
    ((onQuote env cfg s px cum nowMs e ok).1).lastCumVol = some cum ∧
    ((onQuote env cfg s px cum nowMs e ok).1).volInBar
      = tickDeltaVol s.lastCumVol cum ∧
    ((onQuote env cfg s px cum nowMs e ok).1).barStartMs
      = some (bucketStartOf nowMs) ∧
    ((onQuote env cfg s px cum nowMs e ok).1).running = true := by
  rw [onQuote_running env cfg s px cum nowMs e ok hrun]
  dsimp only
  rw [bucketingStage_first env cfg s px nowMs e ok hbs]
  dsimp only
  refine ⟨?_, ?_, ?_, ?_⟩
  · rw [protIntra_lastCumVol, accumStage_lastCumVol]
  · rw [protIntra_volInBar, accumStage_volInBar]
    exact zero_add _
  · rw [protIntra_barStartMs, accumStage_barStartMs]
  · rw [protIntra_running, accumStage_running]
    exact hrun

/-- Facts about a tick processed inside the current bucket (no rollover). -/
theorem onQuote_in_bucket_facts (env : TimeEnv) (cfg : Config) (s : TraderState)
    (px cum : ℚ) (nowMs : ℤ) (e : ℚ) (ok : Bool) (bs : ℤ)
    (hrun : s.running = true) (hbs : s.barStartMs = some bs)
    (h2 : ¬ bucketStartOf nowMs > bs) :
    ((onQuote env cfg s px cum nowMs e ok).1).lastCumVol = some cum ∧
    ((onQuote env cfg s px cum nowMs e ok).1).volInBar
      = s.volInBar + tickDeltaVol s.lastCumVol cum ∧
    ((onQuote env cfg s px cum nowMs e ok).1).barStartMs = some bs ∧
    ((onQuote env cfg s px cum nowMs e ok).1).running = true := by
  rw [onQuote_running env cfg s px cum nowMs e ok hrun]
  dsimp only
  rw [bucketingStage_extend env cfg s px nowMs e ok bs hbs h2]
  dsimp only
  refine ⟨?_, ?_, ?_, ?_⟩
  · rw [protIntra_lastCumVol, accumStage_lastCumVol]
  · rw [protIntra_volInBar, accumStage_volInBar]
  · rw [protIntra_barStartMs, accumStage_barStartMs]
    exact hbs
  · rw [protIntra_running, accumStage_running]
    exact hrun

/-! ## Claim C3 -/

/-- C3: on every processed tick the whole-bar signed delta stored for the
forming bucket equals `±inBarVolumeTotal`, the sign determined by the current
tick price against the previous closed bar's close — `+` above, `-` below,
`0` at equality — and it is `0` while no closed bar exists yet.  The third
conjunct states that the stored value does not depend on the previous tick's
price (the state's `lastPrice`) on an in-bucket tick. -/
theorem c3_whole_bar_delta_sign (env : TimeEnv) (cfg : Config) (st : TraderState)
    (px cumVol : ℚ) (nowMs : ℤ) (equity : ℚ) (ok : Bool)
    (hrun : st.running = true) :
    (((onQuote env cfg st px cumVol nowMs equity ok).1).signedVolInBar
      = pineDelta px
          (((onQuote env cfg st px cumVol nowMs equity ok).1).prevClosedBarClose)
          (((onQuote env cfg st px cumVol nowMs equity ok).1).volInBar)) ∧
    ((((onQuote env cfg st px cumVol nowMs equity ok).1).prevClosedBarClose
        = Option.none) →
      ((onQuote env cfg st px cumVol nowMs equity ok).1).signedVolInBar = 0) ∧
    (∀ p₁ p₂ : Option ℚ, ∀ bs : ℤ, st.barStartMs = some bs →
      ¬ bucketStartOf nowMs > bs →
      ((onQuote env cfg { st with lastPrice := p₁ } px cumVol nowMs equity
          ok).1).signedVolInBar
        = ((onQuote env cfg { st with lastPrice := p₂ } px cumVol nowMs equity
            ok).1).signedVolInBar) := by
  have main :
      ((onQuote env cfg st px cumVol nowMs equity ok).1).signedVolInBar
        = pineDelta px
            (((onQuote env cfg st px cumVol nowMs equity ok).1).prevClosedBarClose)
            (((onQuote env cfg st px cumVol nowMs equity ok).1).volInBar) := by
    rw [onQuote_running env cfg st px cumVol nowMs equity ok hrun]
    dsimp only
    rw [protIntra_signedVolInBar, protIntra_prevClosedBarClose, protIntra_volInBar,
      accumStage_signedVolInBar, accumStage_prevClosedBarClose, accumStage_volInBar]
  refine ⟨main, ?_, ?_⟩
  · intro h
    rw [main, h]
    rfl
  · intro p₁ p₂ bs hbs h2
    rw [onQuote_running env cfg { st with lastPrice := p₁ } px cumVol nowMs equity ok
        hrun,
      onQuote_running env cfg { st with lastPrice := p₂ } px cumVol nowMs equity ok
        hrun]
    dsimp only
    rw [protIntra_signedVolInBar, protIntra_signedVolInBar,
      accumStage_signedVolInBar, accumStage_signedVolInBar,
      bucketingStage_extend env cfg { st with lastPrice := p₁ } px nowMs equity ok
        bs hbs h2,
      bucketingStage_extend env cfg { st with lastPrice := p₂ } px nowMs equity ok
        bs hbs h2]

/-- A freshly started trader (`resetTraderState` + `start`). -/
def initialTrader : TraderState :=
  { running := true
    lastPrice := Option.none
    lastCumVol := Option.none
    signedVolInBar := 0
    volInBar := 0
    prevClosedBarClose := Option.none
    barOpenPx := Option.none
    barHighPx := Option.none
    barLowPx := Option.none
    barStartMs := Option.none
    liveBarOpen := Option.none
    liveBarHigh := Option.none
    liveBarLow := Option.none
    liveBarStartMs := Option.none
    lastIntraBarCheckMs := 0
    enteredBarStartMs := Option.none
    isEnteringPosition := false
    isFlattening := false
    reconciling := false
    market := ⟨0, .neutral, 0⟩
    calcSt := emptyCalc }

def c3wEnv : TimeEnv := ⟨fun _ => 600⟩

theorem c3_whole_bar_delta_sign_witness :
    initialTrader.running = true ∧
    ((((onQuote c3wEnv baseCfg initialTrader 50 100 0 1000 true).1).signedVolInBar
      = pineDelta 50
          (((onQuote c3wEnv baseCfg initialTrader 50 100 0 1000 true).1).prevClosedBarClose)
          (((onQuote c3wEnv baseCfg initialTrader 50 100 0 1000 true).1).volInBar)) ∧
     ((((onQuote c3wEnv baseCfg initialTrader 50 100 0 1000 true).1).prevClosedBarClose
         = Option.none) →
       ((onQuote c3wEnv baseCfg initialTrader 50 100 0 1000 true).1).signedVolInBar = 0) ∧
     (∀ p₁ p₂ : Option ℚ, ∀ bs : ℤ, initialTrader.barStartMs = some bs →
       ¬ bucketStartOf 0 > bs →
       ((onQuote c3wEnv baseCfg { initialTrader with lastPrice := p₁ } 50 100 0 1000
           true).1).signedVolInBar
         = ((onQuote c3wEnv baseCfg { initialTrader with lastPrice := p₂ } 50 100 0
             1000 true).1).signedVolInBar)) :=
  ⟨rfl, c3_whole_bar_delta_sign c3wEnv baseCfg initialTrader 50 100 0 1000 true rfl⟩

/-! ## Claim C4 -/

def c4wCfg : Config := { baseCfg with useIntraBarDetection := false }

def c4wEnv : TimeEnv := ⟨fun _ => 600⟩

def c4w1 : TraderState := (onQuote c4wEnv c4wCfg initialTrader 50 100 0 1000 true).1

def c4w2 : TraderState := (onQuote c4wEnv c4wCfg c4w1 50 140 0 1000 true).1

def c4w3 : TraderState := (onQuote c4wEnv c4wCfg c4w2 50 90 0 1000 true).1

/-- C4: per-tick volume accounting.  `deltaVolume = cum − prevCum` when the
cumulative counter did not decrease, `deltaVolume = cum` on a counter reset
(and on the very first tick), the per-tick delta is never negative for a
non-negative counter, the accumulated in-bar volume stays non-negative across
`onQuote`, and the cumulative sequence `[100, 140, 90]` yields the per-tick
deltas `[100, 40, 90]` with an accumulated in-bar volume of 230. -/
theorem c4_volume_delta_accounting (prevCum : Option ℚ) (p cumVol : ℚ)
    (env : TimeEnv) (cfg : Config) (st : TraderState) (px : ℚ) (nowMs : ℤ)
    (equity : ℚ) (ok : Bool) :
    (p ≤ cumVol → tickDeltaVol (some p) cumVol = cumVol - p) ∧
    (cumVol < p → tickDeltaVol (some p) cumVol = cumVol) ∧
    (tickDeltaVol Option.none cumVol = cumVol) ∧
    (0 ≤ cumVol → 0 ≤ tickDeltaVol prevCum cumVol) ∧
    (0 ≤ st.volInBar → 0 ≤ cumVol →
      0 ≤ ((onQuote env cfg st px cumVol nowMs equity ok).1).volInBar) ∧
    (tickDeltaVol initialTrader.lastCumVol 100 = 100 ∧
     tickDeltaVol c4w1.lastCumVol 140 = 40 ∧
     tickDeltaVol c4w2.lastCumVol 90 = 90 ∧
     c4w3.volInBar = 230) := by
  have hfacts1 := onQuote_first_tick_facts c4wEnv c4wCfg initialTrader 50 100 0 1000
    true rfl rfl
  have h1cum : c4w1.lastCumVol = some 100 := hfacts1.1
  have h1bs : c4w1.barStartMs = some 0 := hfacts1.2.2.1.trans (by decide)
  have h1run : c4w1.running = true := hfacts1.2.2.2
  have h1vol : c4w1.volInBar = 100 := by
    show ((onQuote c4wEnv c4wCfg initialTrader 50 100 0 1000 true).1).volInBar = 100
    rw [hfacts1.2.1]
    norm_num [initialTrader, tickDeltaVol]
  have hfacts2 := onQuote_in_bucket_facts c4wEnv c4wCfg c4w1 50 140 0 1000 true 0
    h1run h1bs (by decide)
  have h2cum : c4w2.lastCumVol = some 140 := hfacts2.1
  have h2bs : c4w2.barStartMs = some 0 := hfacts2.2.2.1
  have h2run : c4w2.running = true := hfacts2.2.2.2
  have h2vol : c4w2.volInBar = 140 := by
    show ((onQuote c4wEnv c4wCfg c4w1 50 140 0 1000 true).1).volInBar = 140
    rw [hfacts2.2.1, h1vol, h1cum]
    norm_num [tickDeltaVol]
  have hfacts3 := onQuote_in_bucket_facts c4wEnv c4wCfg c4w2 50 90 0 1000 true 0
    h2run h2bs (by decide)
  have h3vol : c4w3.volInBar = 230 := by
    show ((onQuote c4wEnv c4wCfg c4w2 50 90 0 1000 true).1).volInBar = 230
    rw [hfacts3.2.1, h2vol, h2cum]
    norm_num [tickDeltaVol]
  refine ⟨?_, ?_, ?_, ?_, ?_, ?_, ?_, ?_, h3vol⟩
  · intro h
    unfold tickDeltaVol
    dsimp only
    rw [if_pos (show cumVol ≥ p from h)]
  · intro h
    unfold tickDeltaVol
    dsimp only
    rw [if_neg (show ¬ cumVol ≥ p from not_le.mpr h)]
  · rfl
  · exact fun h => tickDeltaVol_nonneg prevCum cumVol h
  · intro hv hc
    by_cases hrun : st.running = true
    · rw [onQuote_running env cfg st px cumVol nowMs equity ok hrun]
      dsimp only
      rw [protIntra_volInBar, accumStage_volInBar]
      have hd := tickDeltaVol_nonneg
        (((bucketingStage env cfg st px nowMs equity ok).1).lastCumVol) cumVol hc
      rcases bucketingStage_volInBar env cfg st px nowMs equity ok with hz | he
      · rw [hz]
        exact add_nonneg (le_refl 0) hd
      · rw [he]
        exact add_nonneg hv hd
    · unfold onQuote
      rw [if_pos (Bool.not_eq_true _ ▸ Bool.of_not_eq_true hrun)]
      exact hv
  · norm_num [initialTrader, tickDeltaVol]
  · rw [h1cum]
    norm_num [tickDeltaVol]
  · rw [h2cum]
    norm_num [tickDeltaVol]

theorem c4_volume_delta_accounting_witness :
    ((50 : ℚ) ≤ 90 ∧ (90 : ℚ) < 140 ∧ (0 : ℚ) ≤ 90 ∧ 0 ≤ initialTrader.volInBar) ∧
    (tickDeltaVol (some 50) 90 = 90 - 50 ∧
     tickDeltaVol (some 140) 90 = 90 ∧
     tickDeltaVol Option.none 90 = 90 ∧
     0 ≤ tickDeltaVol (some 7) 90 ∧
     0 ≤ ((onQuote c4wEnv c4wCfg initialTrader 50 90 0 1000 true).1).volInBar ∧
     (tickDeltaVol initialTrader.lastCumVol 100 = 100 ∧
      tickDeltaVol c4w1.lastCumVol 140 = 40 ∧
      tickDeltaVol c4w2.lastCumVol 90 = 90 ∧
      c4w3.volInBar = 230)) := by
  have h := c4_volume_delta_accounting (some 7) 140 90 c4wEnv c4wCfg initialTrader
    50 0 1000 true
  refine ⟨⟨by norm_num, by norm_num, by norm_num, le_refl 0⟩,
    ?_, h.2.1 (by norm_num), h.2.2.1, h.2.2.2.1 (by norm_num),
    h.2.2.2.2.1 (le_refl 0) (by norm_num), h.2.2.2.2.2⟩
  have h' := c4_volume_delta_accounting (some 7) 50 90 c4wEnv c4wCfg initialTrader
    50 0 1000 true
  exact h'.1 (by norm_num)

/-! ## Claim C6 -/

/-- The bar emitted by `closeBarAndProcess` when the forming-bar state is
populated and a last price is known. -/
theorem closeBarAndProcess_emit (env : TimeEnv) (cfg : Config) (st : TraderState)
    (e : ℚ) (n : ℤ) (ok : Bool) (bs : ℤ) (op hp lo lp : ℚ)
    (h1 : st.barStartMs = some bs) (h2 : st.barOpenPx = some op)
    (h3 : st.barHighPx = some hp) (h4 : st.barLowPx = some lo)
    (h5 : st.lastPrice = some lp) :
    (closeBarAndProcess env cfg st e n ok).2
      = some ⟨bs + barStepMs - 1, op, hp, lo, lp,
              ((max 0 ⌊st.volInBar⌋ : ℤ) : ℚ),
              ((jsTrunc st.signedVolInBar : ℤ) : ℚ)⟩ := by
  unfold closeBarAndProcess
  rw [h1, h2, h3, h4]
  dsimp only
  rw [h5]

/-- Rollover branch of the bucketing stage: close the old bucket, then open
the new bucket at the triggering tick's price with zeroed accumulators. -/
theorem bucketingStage_rollover (env : TimeEnv) (cfg : Config) (st : TraderState)
    (px : ℚ) (nowMs : ℤ) (e : ℚ) (ok : Bool) (bs : ℤ)
    (h1 : st.barStartMs = some bs) (hroll : bucketStartOf nowMs > bs) :
    bucketingStage env cfg st px nowMs e ok =
      ({ (closeBarAndProcess env cfg st e nowMs ok).1 with
         barStartMs := some (bucketStartOf nowMs)
         barOpenPx := some px
         barHighPx := some px
         barLowPx := some px
         liveBarOpen := some px
         liveBarHigh := some px
         liveBarLow := some px
         liveBarStartMs := some nowMs
         lastIntraBarCheckMs := 0
         enteredBarStartMs := Option.none
         calcSt := { ((closeBarAndProcess env cfg st e nowMs ok).1).calcSt with
                     intraBarDeltaHistory := [] }
         volInBar := 0
         signedVolInBar := 0 },
       (closeBarAndProcess env cfg st e nowMs ok).2) := by
  unfold bucketingStage
  rw [h1]
  dsimp only
  rw [if_pos hroll]

def c6wCfg : Config := { baseCfg with useIntraBarDetection := false }

def c6wEnv : TimeEnv := ⟨fun _ => 600⟩

/-- A mid-bucket trader state: one tick at price 100 was received at 1000 ms
inside the bucket starting at 0. -/
def c6wSt : TraderState :=
  { initialTrader with
    lastPrice := some 100
    lastCumVol := some 0
    barStartMs := some 0
    barOpenPx := some 100
    barHighPx := some 100
    barLowPx := some 100
    liveBarOpen := some 100
    liveBarHigh := some 100
    liveBarLow := some 100
    liveBarStartMs := some 1000 }

/-- C6 counterexample: a rollover tick at price 105 while the previous
bucket's last traded price was 100 emits a closed bar with close 100 but
opens the new forming bar at 105, not at the just-closed close — refuting the
claim that the tick-driven path opens the new bucket at the closed price. -/
theorem c6_counterexample_tick_open_neq_closed_close :
    (onQuote c6wEnv c6wCfg c6wSt 105 0 200000 1000 true).2
      = some ⟨179999, 100, 100, 100, 100, 0, 0⟩ ∧
    ((onQuote c6wEnv c6wCfg c6wSt 105 0 200000 1000 true).1).barOpenPx = some 105 ∧
    ((105 : ℚ)) ≠ 100 := by
  have hroll : bucketStartOf 200000 > 0 := by decide
  refine ⟨?_, ?_, by norm_num⟩
  · rw [onQuote_running c6wEnv c6wCfg c6wSt 105 0 200000 1000 true rfl]
    dsimp only
    rw [bucketingStage_rollover c6wEnv c6wCfg c6wSt 105 200000 1000 true 0 rfl hroll]
    dsimp only
    rw [closeBarAndProcess_emit c6wEnv c6wCfg c6wSt 1000 200000 true 0 100 100 100
      100 rfl rfl rfl rfl rfl]
    norm_num [barStepMs, jsTrunc, c6wSt, initialTrader]
  · rw [onQuote_running c6wEnv c6wCfg c6wSt 105 0 200000 1000 true rfl]
    dsimp only
    rw [protIntra_barOpenPx, accumStage_barOpenPx,
      bucketingStage_rollover c6wEnv c6wCfg c6wSt 105 200000 1000 true 0 rfl hroll]

/-- C6 amended: on every bucket rollover the per-bar volume and signed-delta
accumulators are reset to 0; the heartbeat-driven path opens the new forming
bar at the just-closed bar's close, while the tick-driven path opens it at
the triggering tick's price (which need not equal the closed bar's close). -/
theorem c6_amended_rollover_reset_and_open (env : TimeEnv) (cfg : Config)
    (st : TraderState) (px cum : ℚ) (nowMs : ℤ) (e : ℚ) (ok : Bool)
    (bs : ℤ) (op hp lo lp : ℚ)
    (hrun : st.running = true)
    (h1 : st.barStartMs = some bs) (h2 : st.barOpenPx = some op)
    (h3 : st.barHighPx = some hp) (h4 : st.barLowPx = some lo)
    (h5 : st.lastPrice = some lp)
    (hroll : bucketStartOf nowMs > bs) :
    (((bucketingStage env cfg st px nowMs e ok).1).volInBar = 0 ∧
     ((bucketingStage env cfg st px nowMs e ok).1).signedVolInBar = 0 ∧
     ((bucketingStage env cfg st px nowMs e ok).1).barOpenPx = some px ∧
     ((onQuote env cfg st px cum nowMs e ok).1).barOpenPx = some px ∧
     (bucketingStage env cfg st px nowMs e ok).2
       = some ⟨bs + barStepMs - 1, op, hp, lo, lp,
               ((max 0 ⌊st.volInBar⌋ : ℤ) : ℚ),
               ((jsTrunc st.signedVolInBar : ℤ) : ℚ)⟩) ∧
    (((maybeCloseBarByClock env cfg st nowMs e ok).1).volInBar = 0 ∧
     ((maybeCloseBarByClock env cfg st nowMs e ok).1).signedVolInBar = 0 ∧
     ((maybeCloseBarByClock env cfg st nowMs e ok).1).barOpenPx = some lp ∧
     (maybeCloseBarByClock env cfg st nowMs e ok).2
       = some ⟨bs + barStepMs - 1, op, hp, lo, lp,
               ((max 0 ⌊st.volInBar⌋ : ℤ) : ℚ),
               ((jsTrunc st.signedVolInBar : ℤ) : ℚ)⟩) := by
  have hemit := closeBarAndProcess_emit env cfg st e nowMs ok bs op hp lo lp
    h1 h2 h3 h4 h5
  constructor
  · rw [bucketingStage_rollover env cfg st px nowMs e ok bs h1 hroll]
    refine ⟨rfl, rfl, rfl, ?_, hemit⟩
    rw [onQuote_running env cfg st px cum nowMs e ok hrun]
    dsimp only
    rw [protIntra_barOpenPx, accumStage_barOpenPx,
      bucketingStage_rollover env cfg st px nowMs e ok bs h1 hroll]
  · unfold maybeCloseBarByClock
    rw [if_neg (by simp [hrun]), h1]
    dsimp only
    rw [if_pos hroll, h5]
    exact ⟨rfl, rfl, rfl, hemit⟩

theorem c6_amended_rollover_reset_and_open_witness :
    (c6wSt.running = true ∧ c6wSt.barStartMs = some 0 ∧
     c6wSt.barOpenPx = some 100 ∧ c6wSt.barHighPx = some 100 ∧
     c6wSt.barLowPx = some 100 ∧ c6wSt.lastPrice = some 100 ∧
     bucketStartOf 200000 > 0) ∧
    ((((bucketingStage c6wEnv c6wCfg c6wSt 105 200000 1000 true).1).volInBar = 0 ∧
      ((bucketingStage c6wEnv c6wCfg c6wSt 105 200000 1000 true).1).signedVolInBar = 0 ∧
      ((bucketingStage c6wEnv c6wCfg c6wSt 105 200000 1000 true).1).barOpenPx
        = some 105 ∧
      ((onQuote c6wEnv c6wCfg c6wSt 105 0 200000 1000 true).1).barOpenPx = some 105 ∧
      (bucketingStage c6wEnv c6wCfg c6wSt 105 200000 1000 true).2
        = some ⟨0 + barStepMs - 1, 100, 100, 100, 100,
                ((max 0 ⌊c6wSt.volInBar⌋ : ℤ) : ℚ),
                ((jsTrunc c6wSt.signedVolInBar : ℤ) : ℚ)⟩) ∧
     (((maybeCloseBarByClock c6wEnv c6wCfg c6wSt 200000 1000 true).1).volInBar = 0 ∧
      ((maybeCloseBarByClock c6wEnv c6wCfg c6wSt 200000 1000 true).1).signedVolInBar
        = 0 ∧
      ((maybeCloseBarByClock c6wEnv c6wCfg c6wSt 200000 1000 true).1).barOpenPx
        = some 100 ∧
      (maybeCloseBarByClock c6wEnv c6wCfg c6wSt 200000 1000 true).2
        = some ⟨0 + barStepMs - 1, 100, 100, 100, 100,
                ((max 0 ⌊c6wSt.volInBar⌋ : ℤ) : ℚ),
                ((jsTrunc c6wSt.signedVolInBar : ℤ) : ℚ)⟩)) :=
  ⟨⟨rfl, rfl, rfl, rfl, rfl, rfl, by decide⟩,
   c6_amended_rollover_reset_and_open c6wEnv c6wCfg c6wSt 105 0 200000 1000 true
     0 100 100 100 100 rfl rfl rfl rfl rfl rfl (by decide)⟩

/-! ## Claim C5 -/

theorem checkExit_long (cfg : Config) (cs : CalcState) (bar : Bar) (pos : Position)
    (hpos : cs.currentPosition = some pos)
    (hbars : cfg.minBarsBeforeExit ≤
      (cs.bars3min.filter (fun b => decide (pos.entryTime < b.timestamp))).length)
    (hdir : pos.direction = .long) (hlow : bar.low ≤ pos.stopLoss) :
    checkExitConditions cfg cs bar = some ⟨.sell, .hitStopExit, 1⟩ := by
  unfold checkExitConditions
  rw [hpos]
  dsimp only
  rw [if_neg (not_lt.mpr hbars), if_pos ⟨hdir, hlow⟩]

theorem checkExit_short (cfg : Config) (cs : CalcState) (bar : Bar) (pos : Position)
    (hpos : cs.currentPosition = some pos)
    (hbars : cfg.minBarsBeforeExit ≤
      (cs.bars3min.filter (fun b => decide (pos.entryTime < b.timestamp))).length)
    (hdir : pos.direction = .short) (hhigh : pos.stopLoss ≤ bar.high) :
    checkExitConditions cfg cs bar = some ⟨.buy, .hitStopExit, 1⟩ := by
  unfold checkExitConditions
  rw [hpos]
  dsimp only
  rw [if_neg (not_lt.mpr hbars),
    if_neg (fun hc => by rw [hdir] at hc; exact absurd hc.1 (by simp)),
    if_pos ⟨hdir, hhigh⟩]

/-- When warm-up is done, no eviction fires, the bar is in session, and the
exit check on the pushed history fires, `processNewBar` returns that exit
signal. -/
theorem processNewBar_exit (env : TimeEnv) (cfg : Config) (cs : CalcState)
    (bar : Bar) (ms : MarketState) (ex : TradeSignal)
    (hwarm : cs.isWarmUpProcessed = true)
    (hlen : ¬ (cs.bars3min ++ [normalizeClosedBar bar]).length > 2000)
    (hsess : isInTradingSession env cfg bar.timestamp = true)
    (hex : checkExitConditions cfg
      { cs with
        bars3min := cs.bars3min ++ [normalizeClosedBar bar]
        bars15min := (updateHigherTimeframeBars cfg cs.bars15min
          cs.lastHTFBucketStartMs (normalizeClosedBar bar)).1
        lastHTFBucketStartMs := (updateHigherTimeframeBars cfg cs.bars15min
          cs.lastHTFBucketStartMs (normalizeClosedBar bar)).2 }
      (normalizeClosedBar bar) = some ex) :
    (processNewBar env cfg cs bar ms).1 = ex := by
  unfold processNewBar
  rw [if_neg (by simp [hwarm])]
  dsimp only
  simp only [if_neg hlen]
  rw [if_neg (by simp [hsess]), hex]

/-- C5 amended: the exit-by-stop at bar close behaves as claimed — position
present, minimum bars since entry elapsed, stop crossed by the closed bar's
low (long) or high (short) imply `processNewBar` returns the exit signal at
confidence 1.0 before the entry pipeline — but only for a bar inside the
trading session: the session gate is evaluated before the exit check, so the
claim's universal form fails on out-of-session bars. -/
theorem c5_amended_exit_by_stop (env : TimeEnv) (cfg : Config) (cs : CalcState)
    (bar : Bar) (ms : MarketState) (pos : Position)
    (hwarm : cs.isWarmUpProcessed = true)
    (hpos : cs.currentPosition = some pos)
    (hlen : cs.bars3min.length ≤ 1999)
    (hsess : isInTradingSession env cfg bar.timestamp = true)
    (hbars : cfg.minBarsBeforeExit ≤
      ((cs.bars3min ++ [normalizeClosedBar bar]).filter
        (fun b => decide (pos.entryTime < b.timestamp))).length) :
    (pos.direction = .long → bar.low ≤ pos.stopLoss →
      (processNewBar env cfg cs bar ms).1 = ⟨.sell, .hitStopExit, 1⟩) ∧
    (pos.direction = .short → pos.stopLoss ≤ bar.high →
      (processNewBar env cfg cs bar ms).1 = ⟨.buy, .hitStopExit, 1⟩) := by
  have hlen2 : ¬ (cs.bars3min ++ [normalizeClosedBar bar]).length > 2000 := by
    simp only [List.length_append, List.length_singleton]
    omega
  constructor
  · intro hdir hlow
    exact processNewBar_exit env cfg cs bar ms _ hwarm hlen2 hsess
      (checkExit_long cfg _ (normalizeClosedBar bar) pos hpos hbars hdir hlow)
  · intro hdir hhigh
    exact processNewBar_exit env cfg cs bar ms _ hwarm hlen2 hsess
      (checkExit_short cfg _ (normalizeClosedBar bar) pos hpos hbars hdir hhigh)

def c5wEnvOut : TimeEnv := ⟨fun _ => 0⟩

def c5wEnvIn : TimeEnv := ⟨fun _ => 600⟩

def c5wPos : Position := ⟨100, 0, .long, 95, 4, 4⟩

def c5wCalc : CalcState :=
  { emptyCalc with
    isWarmUpProcessed := true
    currentPosition := some c5wPos }

def c5wBar : Bar := ⟨1000, 100, 100, 94, 96, 10, 5⟩

def c5wMs : MarketState := ⟨10, .neutral, 0⟩

/-- C5 counterexample: warm-up is complete, a long position exists, the
minimum-bars-since-entry requirement (0) is met, and the closed bar's low 94
crosses the fixed stop 95 — yet `processNewBar` returns the out-of-session
hold, not the claimed sell exit at confidence 1.0, because the bar's
timestamp falls outside the trading session and the session gate runs before
the exit check. -/
theorem c5_counterexample_out_of_session_no_exit :
    c5wCalc.isWarmUpProcessed = true ∧
    c5wCalc.currentPosition = some c5wPos ∧
    c5wPos.direction = .long ∧
    c5wBar.low ≤ c5wPos.stopLoss ∧
    baseCfg.minBarsBeforeExit ≤
      ((c5wCalc.bars3min ++ [normalizeClosedBar c5wBar]).filter
        (fun b => decide (c5wPos.entryTime < b.timestamp))).length ∧
    (processNewBar c5wEnvOut baseCfg c5wCalc c5wBar c5wMs).1
      = ⟨.hold, .outOfSession, 0⟩ ∧
    Reason.outOfSession ≠ Reason.hitStopExit := by
  refine ⟨rfl, rfl, rfl, by norm_num [c5wBar, c5wPos], ?_, ?_, by decide⟩
  · norm_num [baseCfg, c5wCalc, emptyCalc]
  · rfl

theorem c5_amended_exit_by_stop_witness :
    (c5wCalc.isWarmUpProcessed = true ∧
     c5wCalc.currentPosition = some c5wPos ∧
     c5wCalc.bars3min.length ≤ 1999 ∧
     isInTradingSession c5wEnvIn baseCfg c5wBar.timestamp = true ∧
     baseCfg.minBarsBeforeExit ≤
       ((c5wCalc.bars3min ++ [normalizeClosedBar c5wBar]).filter
         (fun b => decide (c5wPos.entryTime < b.timestamp))).length) ∧
    ((c5wPos.direction = .long → c5wBar.low ≤ c5wPos.stopLoss →
      (processNewBar c5wEnvIn baseCfg c5wCalc c5wBar c5wMs).1
        = ⟨.sell, .hitStopExit, 1⟩) ∧
     (c5wPos.direction = .short → c5wPos.stopLoss ≤ c5wBar.high →
      (processNewBar c5wEnvIn baseCfg c5wCalc c5wBar c5wMs).1
        = ⟨.buy, .hitStopExit, 1⟩)) :=
  ⟨⟨rfl, rfl, by norm_num [c5wCalc, emptyCalc], by decide,
    by norm_num [baseCfg, c5wCalc, emptyCalc]⟩,
   c5_amended_exit_by_stop c5wEnvIn baseCfg c5wCalc c5wBar c5wMs c5wPos rfl rfl
     (by norm_num [c5wCalc, emptyCalc]) (by decide)
     (by norm_num [baseCfg, c5wCalc, emptyCalc])⟩

/-! ## Claim C1 -/

/-- Fold a sequence of `handleSignal` invocations
(signal, bar, equity, nowMs, order outcome), counting how many pass every
guard and reach the order attempt (only there can `createOrder` be called). -/
def runSignals (cfg : Config) : TraderState → List (SigKind × Bar × ℚ × ℤ × Bool) →
    TraderState × ℕ
  | st, [] => (st, 0)
  | st, c :: rest =>
    let one := handleSignal cfg st c.1 c.2.1 c.2.2.1 c.2.2.2.1 c.2.2.2.2
    let more := runSignals cfg one.1 rest
    (more.1, (if one.2 then 1 else 0) + more.2)

/-- With a position open, `handleSignal` returns unchanged without reaching
the order attempt. -/
theorem handleSignal_blocked_position (cfg : Config) (st : TraderState)
    (sig : SigKind) (bar : Bar) (e : ℚ) (n : ℤ) (ok : Bool)
    (hp : st.calcSt.currentPosition.isSome = true) :
    handleSignal cfg st sig bar e n ok = (st, false) := by
  unfold handleSignal
  by_cases h1 : sig = .exit ∨ sig = .hold
  · rw [if_pos h1]
  · rw [if_neg h1, if_pos hp]

/-- A `handleSignal` call whose order oracle succeeds either never reached the
attempt (state unchanged, no attempt flag) or leaves an open position with the
per-bar entry marker equal to the bucket identifier. -/
theorem handleSignal_true_cases (cfg : Config) (st : TraderState) (sig : SigKind)
    (bar : Bar) (e : ℚ) (n : ℤ) :
    handleSignal cfg st sig bar e n true = (st, false) ∨
    (((handleSignal cfg st sig bar e n true).1).calcSt.currentPosition.isSome = true ∧
     ((handleSignal cfg st sig bar e n true).1).enteredBarStartMs = st.barStartMs) := by
  unfold handleSignal
  split_ifs
  · exact Or.inl rfl
  · exact Or.inl rfl
  · exact Or.inl rfl
  · exact Or.inl rfl
  · exact Or.inl rfl
  · exact Or.inr ⟨by simp [setPosition], rfl⟩
  · exact Or.inr ⟨by simp [setPosition], rfl⟩
  · exact absurd rfl (by assumption)

/-- Any sequence of invocations on a blocked (position-open) state does
nothing and attempts no order. -/
theorem runSignals_blocked (cfg : Config)
    (calls : List (SigKind × Bar × ℚ × ℤ × Bool)) :
    ∀ s : TraderState, s.calcSt.currentPosition.isSome = true →
      runSignals cfg s calls = (s, 0) := by
  induction calls with
  | nil => intro s _; rfl
  | cons c rest ih =>
    intro s hs
    simp only [runSignals]
    rw [handleSignal_blocked_position cfg s c.1 c.2.1 c.2.2.1 c.2.2.2.1 c.2.2.2.2 hs]
    dsimp only
    rw [ih s hs]
    rfl

/-- C1: once a non-hold signal makes `handleSignal` record the current
bucket-start identifier and the order submission succeeds, every later
invocation — any number of further signals, with any outcomes — returns with
the state unchanged and performs zero order attempts; the per-bar marker
equals the (unchanged) bucket identifier at that point. -/
theorem c1_at_most_one_entry_per_bucket (cfg : Config) (st : TraderState)
    (sig : SigKind) (bar : Bar) (equity : ℚ) (nowMs : ℤ)
    (calls : List (SigKind × Bar × ℚ × ℤ × Bool))
    (hatt : (handleSignal cfg st sig bar equity nowMs true).2 = true) :
    ((handleSignal cfg st sig bar equity nowMs true).1).enteredBarStartMs
      = ((handleSignal cfg st sig bar equity nowMs true).1).barStartMs ∧
    runSignals cfg ((handleSignal cfg st sig bar equity nowMs true).1) calls
      = ((handleSignal cfg st sig bar equity nowMs true).1, 0) := by
  rcases handleSignal_true_cases cfg st sig bar equity nowMs with hcase | ⟨hp, hent⟩
  · rw [hcase] at hatt
    exact absurd hatt (by simp)
  · refine ⟨?_, runSignals_blocked cfg calls _ hp⟩
    rw [hent, handleSignal_barStartMs]

def c1wBar : Bar := ⟨0, 100, 100, 100, 100, 0, 0⟩

def c1wSt : TraderState :=
  { initialTrader with
    barStartMs := some 0
    market := ⟨10, .bullish, 0⟩ }

theorem c1_at_most_one_entry_per_bucket_witness :
    (handleSignal baseCfg c1wSt .buy c1wBar 10000 5 true).2 = true ∧
    (((handleSignal baseCfg c1wSt .buy c1wBar 10000 5 true).1).enteredBarStartMs
       = ((handleSignal baseCfg c1wSt .buy c1wBar 10000 5 true).1).barStartMs ∧
     runSignals baseCfg ((handleSignal baseCfg c1wSt .buy c1wBar 10000 5 true).1)
         [(.sell, c1wBar, 10000, 6, true), (.buy, c1wBar, 10000, 7, true)]
       = ((handleSignal baseCfg c1wSt .buy c1wBar 10000 5 true).1, 0)) := by
  have hatt : (handleSignal baseCfg c1wSt .buy c1wBar 10000 5 true).2 = true := by
    unfold handleSignal
    rw [if_neg (by decide)]
    rw [if_neg (by decide)]
    rw [if_neg (by decide)]
    rw [if_neg (by decide)]
    rw [if_neg (by norm_num [c1wSt, initialTrader, baseCfg])]
    rfl
  exact ⟨hatt,
    c1_at_most_one_entry_per_bucket baseCfg c1wSt .buy c1wBar 10000 5
      [(.sell, c1wBar, 10000, 6, true), (.buy, c1wBar, 10000, 7, true)] hatt⟩

end MNQDeltaTrend
